import Mathlib

/-!
Verification of the two core source files of the repository:

* `src/brpc/socket_message.h` — the `SocketMessage` capability interface, the
  `details::SocketMessageDeleter`, and the RAII wrapper `SocketMessagePtr`.
* `src/bthread/context.cpp` — the architecture-specific assembly routines
  `bthread_jump_fcontext` / `bthread_make_fcontext` (libcontext) together with
  their `finish` trampolines, for eight architecture variants.

The assembly routines are embedded as explicit state-transformers over a
machine state (registers, stack pointer, program counter, memory).  Memory is
modelled at the granularity the routines actually use: a total map from byte
address to value, where a store of width `w` bits at address `a` replaces the
cell at `a` with the value truncated to `w` bits.  Every load performed by the
embedded routines reads a cell at exactly the address and width at which the
matching store wrote it, so this cell-granular model is faithful for the code
at hand; partial overlap of differently-based accesses does not occur in the
routines and is therefore not modelled.
-/

/-- Byte-addressed memory, one value per base address (cell granularity). -/
abbrev Mem : Type := Nat → Nat

/-- Store a value of width `w` bits at address `a`, truncating to `w` bits. -/
def Mem.store (m : Mem) (a w v : Nat) : Mem :=
  fun x => if x = a then v % 2 ^ w else m x

/-- Load the value of width `w` bits based at address `a`. -/
def Mem.load (m : Mem) (a w : Nat) : Nat :=
  m a % 2 ^ w

theorem Mem.load_store_same (m : Mem) (a w v : Nat) :
    (m.store a w v).load a w = v % 2 ^ w := by
  simp [Mem.store, Mem.load, Nat.mod_mod_of_dvd]

theorem Mem.load_store_ne (m : Mem) (a b w w' v : Nat) (h : a ≠ b) :
    (m.store b w' v).load a w = m.load a w := by
  simp [Mem.store, Mem.load, h]

theorem Mem.store_at_ne (m : Mem) (a b w v : Nat) (h : a ≠ b) :
    (m.store b w v) a = m a := by
  simp [Mem.store, h]

theorem Mem.store_at_same (m : Mem) (a w v : Nat) :
    (m.store a w v) a = v % 2 ^ w := by
  simp [Mem.store]

theorem Mem.store_at_eq (m : Mem) (a b w v : Nat) (h : a = b) :
    (m.store b w v) a = v % 2 ^ w := by
  simp [Mem.store, h]

theorem Mem.load_def (m : Mem) (a w : Nat) : m.load a w = m a % 2 ^ w :=
  rfl

theorem addOffsetNe (b j k : Nat) (h : j ≠ k) : b + j ≠ b + k :=
  fun hh => h (Nat.add_left_cancel hh)

theorem addOffsetNeBase (b k : Nat) (h : k ≠ 0) : b + k ≠ b :=
  fun hh => h (Nat.add_left_cancel (hh.trans (Nat.add_zero b).symm))

theorem outsideNe (c k n x : Nat) (hk : k < n) (hx : x < c ∨ c + n ≤ x) :
    x ≠ c + k := by
  rcases hx with h | h
  · exact Nat.ne_of_lt (Nat.lt_of_lt_of_le h (Nat.le_add_right c k))
  · exact (Nat.ne_of_lt (Nat.lt_of_lt_of_le (Nat.add_lt_add_left hk c) h)).symm

theorem outsideNeBase (c n x : Nat) (hn : 0 < n) (hx : x < c ∨ c + n ≤ x) :
    x ≠ c := by
  rcases hx with h | h
  · exact Nat.ne_of_lt h
  · exact (Nat.ne_of_lt (Nat.lt_of_lt_of_le (Nat.lt_add_of_pos_right hn) h)).symm

/-!
## The linux_x86_64 variant (context.cpp lines 341-410)

`bthread_jump_fcontext(from : **context, to : *context, vp, preserve_fpu)`
with the SysV AMD64 convention: arguments in rdi, rsi, rdx, rcx; return value
in rax; the `call` instruction of the caller pushes the return address.
-/

/-- The registers of the linux_x86_64 model that the routines read or write:
the callee-saved general-purpose registers pushed by `bthread_jump_fcontext`,
the argument registers, and the floating-point control state (`mxcsr`, the
x87 control word `fcw`). -/
structure X64Regs where
  rbp : Nat
  rbx : Nat
  r12 : Nat
  r13 : Nat
  r14 : Nat
  r15 : Nat
  rdi : Nat
  rsi : Nat
  rdx : Nat
  rcx : Nat
  rax : Nat
  r8 : Nat
  mxcsr : Nat
  fcw : Nat


/-- A linux_x86_64 machine state: registers, stack pointer, instruction
pointer, memory. -/
structure X64State where
  regs : X64Regs
  rsp : Nat
  rip : Nat
  mem : Mem

/-- Register values fit their hardware width (64-bit GP registers, 32-bit
mxcsr, 16-bit x87 control word). -/
def X64Regs.ok (r : X64Regs) : Prop :=
  r.rbp < 2 ^ 64 ∧ r.rbx < 2 ^ 64 ∧ r.r12 < 2 ^ 64 ∧ r.r13 < 2 ^ 64 ∧
  r.r14 < 2 ^ 64 ∧ r.r15 < 2 ^ 64 ∧ r.mxcsr < 2 ^ 32 ∧ r.fcw < 2 ^ 16

instance (r : X64Regs) : Decidable r.ok := by
  unfold X64Regs.ok; infer_instance

/-- The save half of linux_x86_64 `bthread_jump_fcontext` (lines 348-361):
the implicit push of the return address by the `call` of the caller, the six
`pushq` of rbp, rbx, r15, r14, r13, r12, the `leaq -0x8(%rsp)` FPU slot, the
conditional `stmxcsr (%rsp)` / `fnstcw 0x4(%rsp)` when rcx is non-zero, and
`movq %rsp,(%rdi)` publishing the saved stack pointer through the first
argument.  Returns the resulting memory and the saved stack pointer. -/
def x64JumpSave (s : X64State) (ret : Nat) : Mem × Nat :=
  let r := s.regs
  let sp0 := s.rsp - 8
  let m1 := s.mem.store sp0 64 ret
  let m2 := m1.store (sp0 - 8) 64 r.rbp
  let m3 := m2.store (sp0 - 16) 64 r.rbx
  let m4 := m3.store (sp0 - 24) 64 r.r15
  let m5 := m4.store (sp0 - 32) 64 r.r14
  let m6 := m5.store (sp0 - 40) 64 r.r13
  let m7 := m6.store (sp0 - 48) 64 r.r12
  let sSp := sp0 - 56
  let m8 := if r.rcx ≠ 0 then (m7.store sSp 32 r.mxcsr).store (sSp + 4) 16 r.fcw else m7
  let m9 := m8.store r.rdi 64 sSp
  (m9, sSp)

/-- The restore half of linux_x86_64 `bthread_jump_fcontext` (lines 362-378):
`movq %rsi,%rsp`, the conditional `ldmxcsr` / `fldcw` when rcx is non-zero,
the `leaq 0x8(%rsp)` skip of the FPU slot, the six `popq` into r12, r13, r14,
r15, rbx, rbp, the `popq %r8` of the resume address, `movq %rdx,%rax`,
`movq %rdx,%rdi`, and `jmp *%r8`.  Returns the new registers, stack pointer
and instruction pointer. -/
def x64JumpRestore (m : Mem) (r : X64Regs) : X64Regs × Nat × Nat :=
  let tsp := r.rsi
  let mx := if r.rcx ≠ 0 then m.load tsp 32 else r.mxcsr
  let fc := if r.rcx ≠ 0 then m.load (tsp + 4) 16 else r.fcw
  let v12 := m.load (tsp + 8) 64
  let v13 := m.load (tsp + 16) 64
  let v14 := m.load (tsp + 24) 64
  let v15 := m.load (tsp + 32) 64
  let vbx := m.load (tsp + 40) 64
  let vbp := m.load (tsp + 48) 64
  let vip := m.load (tsp + 56) 64
  ({ r with mxcsr := mx, fcw := fc, r12 := v12, r13 := v13, r14 := v14,
            r15 := v15, rbx := vbx, rbp := vbp, r8 := vip,
            rax := r.rdx, rdi := r.rdx },
   tsp + 64, vip)

/-- linux_x86_64 `bthread_jump_fcontext` (context.cpp lines 343-381), as one
step from the state at the call site; `ret` is the return address pushed by
the `call` instruction of the caller. -/
def bthread_jump_fcontext_x86_64 (s : X64State) (ret : Nat) : X64State :=
  let sv := x64JumpSave s ret
  let rr := x64JumpRestore sv.1 s.regs
  { regs := rr.1, rsp := rr.2.1, rip := rr.2.2, mem := sv.1 }

/-- linux_x86_64 `bthread_make_fcontext` (context.cpp lines 387-401):
`rax := rdi & -16 - 0x48`; stores the current mxcsr at `rax`, the x87 control
word at `rax+0x4`, the entry function at `rax+0x38` and the address of the
`finish` label at `rax+0x40`; the stack-size argument (rsi) is ignored by this
variant.  `finishAddr` stands for the link-time constant
`leaq finish(%rip)`. -/
def bthread_make_fcontext_x86_64 (m : Mem) (mxcsr fcw : Nat)
    (stackTop entry finishAddr : Nat) : Nat × Mem :=
  let ctx := (stackTop - stackTop % 16) - 0x48
  let m1 := m.store ctx 32 mxcsr
  let m2 := m1.store (ctx + 4) 16 fcw
  let m3 := m2.store (ctx + 0x38) 64 entry
  let m4 := m3.store (ctx + 0x40) 64 finishAddr
  (ctx, m4)

/-- The x86 `ret` instruction: pop the return address into rip. -/
def x64Ret (s : X64State) : X64State :=
  { s with rip := s.mem.load s.rsp 64, rsp := s.rsp + 8 }

/-- The nine cells (by base address) of the frame written by the save half of
linux_x86_64 `bthread_jump_fcontext`, relative to the saved stack pointer:
mxcsr, fcw, r12, r13, r14, r15, rbx, rbp, return address. -/
def x64FrameCells (b : Nat) : List Nat :=
  [b, b + 4, b + 8, b + 16, b + 24, b + 32, b + 40, b + 48, b + 56]

/-!
Field-level unfolding lemmas for the x86_64 jump, each holding by
definitional unfolding: the restored registers are loads from the target
frame at the documented offsets, the transfer value lands in rax and rdi,
and the memory of the resulting state is the memory left by the save half.
-/

theorem jumpX86_r12 (s : X64State) (ret : Nat) :
    (bthread_jump_fcontext_x86_64 s ret).regs.r12 =
      Mem.load (x64JumpSave s ret).1 (s.regs.rsi + 8) 64 := rfl

theorem jumpX86_r13 (s : X64State) (ret : Nat) :
    (bthread_jump_fcontext_x86_64 s ret).regs.r13 =
      Mem.load (x64JumpSave s ret).1 (s.regs.rsi + 16) 64 := rfl

theorem jumpX86_r14 (s : X64State) (ret : Nat) :
    (bthread_jump_fcontext_x86_64 s ret).regs.r14 =
      Mem.load (x64JumpSave s ret).1 (s.regs.rsi + 24) 64 := rfl

theorem jumpX86_r15 (s : X64State) (ret : Nat) :
    (bthread_jump_fcontext_x86_64 s ret).regs.r15 =
      Mem.load (x64JumpSave s ret).1 (s.regs.rsi + 32) 64 := rfl

theorem jumpX86_rbx (s : X64State) (ret : Nat) :
    (bthread_jump_fcontext_x86_64 s ret).regs.rbx =
      Mem.load (x64JumpSave s ret).1 (s.regs.rsi + 40) 64 := rfl

theorem jumpX86_rbp (s : X64State) (ret : Nat) :
    (bthread_jump_fcontext_x86_64 s ret).regs.rbp =
      Mem.load (x64JumpSave s ret).1 (s.regs.rsi + 48) 64 := rfl

theorem jumpX86_mxcsr (s : X64State) (ret : Nat) :
    (bthread_jump_fcontext_x86_64 s ret).regs.mxcsr =
      if s.regs.rcx ≠ 0 then Mem.load (x64JumpSave s ret).1 s.regs.rsi 32
      else s.regs.mxcsr := rfl

theorem jumpX86_fcw (s : X64State) (ret : Nat) :
    (bthread_jump_fcontext_x86_64 s ret).regs.fcw =
      if s.regs.rcx ≠ 0 then Mem.load (x64JumpSave s ret).1 (s.regs.rsi + 4) 16
      else s.regs.fcw := rfl

theorem jumpX86_rax (s : X64State) (ret : Nat) :
    (bthread_jump_fcontext_x86_64 s ret).regs.rax = s.regs.rdx := rfl

theorem jumpX86_rdi (s : X64State) (ret : Nat) :
    (bthread_jump_fcontext_x86_64 s ret).regs.rdi = s.regs.rdx := rfl

theorem jumpX86_rip (s : X64State) (ret : Nat) :
    (bthread_jump_fcontext_x86_64 s ret).rip =
      Mem.load (x64JumpSave s ret).1 (s.regs.rsi + 56) 64 := rfl

theorem jumpX86_rsp (s : X64State) (ret : Nat) :
    (bthread_jump_fcontext_x86_64 s ret).rsp = s.regs.rsi + 64 := rfl

theorem jumpX86_mem (s : X64State) (ret : Nat) :
    (bthread_jump_fcontext_x86_64 s ret).mem = (x64JumpSave s ret).1 := rfl

theorem x64Ret_rip (s : X64State) :
    (x64Ret s).rip = Mem.load s.mem s.rsp 64 := rfl

theorem x64FrameArith (rsp : Nat) (h : 64 ≤ rsp) :
    rsp - 8 - 56 + 4 = rsp - 64 + 4 ∧
    rsp - 8 - 56 = rsp - 64 ∧
    rsp - 8 - 48 = rsp - 64 + 8 ∧
    rsp - 8 - 40 = rsp - 64 + 16 ∧
    rsp - 8 - 32 = rsp - 64 + 24 ∧
    rsp - 8 - 24 = rsp - 64 + 32 ∧
    rsp - 8 - 16 = rsp - 64 + 40 ∧
    rsp - 8 - 8 = rsp - 64 + 48 ∧
    rsp - 8 = rsp - 64 + 56 := by
  obtain ⟨t, rfl⟩ := Nat.exists_eq_add_of_le h
  rw [Nat.add_comm 64 t]
  have h8 : t + 64 - 8 = t + 56 := (Nat.add_sub_assoc (by decide) t).trans rfl
  have hB : t + 64 - 64 = t := (Nat.add_sub_assoc (by decide) t).trans rfl
  have p56 : t + 56 - 56 = t := (Nat.add_sub_assoc (by decide) t).trans rfl
  have p48 : t + 56 - 48 = t + 8 := (Nat.add_sub_assoc (by decide) t).trans rfl
  have p40 : t + 56 - 40 = t + 16 := (Nat.add_sub_assoc (by decide) t).trans rfl
  have p32 : t + 56 - 32 = t + 24 := (Nat.add_sub_assoc (by decide) t).trans rfl
  have p24 : t + 56 - 24 = t + 32 := (Nat.add_sub_assoc (by decide) t).trans rfl
  have p16 : t + 56 - 16 = t + 40 := (Nat.add_sub_assoc (by decide) t).trans rfl
  have p8 : t + 56 - 8 = t + 48 := (Nat.add_sub_assoc (by decide) t).trans rfl
  rw [h8, hB, p56, p48, p40, p32, p24, p16, p8]
  exact ⟨rfl, rfl, rfl, rfl, rfl, rfl, rfl, rfl, rfl⟩

theorem x64FrameCells_mem (b : Nat) :
    b ∈ x64FrameCells b ∧ b + 4 ∈ x64FrameCells b ∧ b + 8 ∈ x64FrameCells b ∧
    b + 16 ∈ x64FrameCells b ∧ b + 24 ∈ x64FrameCells b ∧
    b + 32 ∈ x64FrameCells b ∧ b + 40 ∈ x64FrameCells b ∧
    b + 48 ∈ x64FrameCells b ∧ b + 56 ∈ x64FrameCells b := by
  simp [x64FrameCells]

theorem x64JumpSave_frame (s : X64State) (ret : Nat)
    (hrsp : 64 ≤ s.rsp) (hret : ret < 2 ^ 64) (hok : s.regs.ok)
    (hdi : s.regs.rdi ∉ x64FrameCells (s.rsp - 64)) :
    (x64JumpSave s ret).1 (s.rsp - 64 + 8) = s.regs.r12 ∧
    (x64JumpSave s ret).1 (s.rsp - 64 + 16) = s.regs.r13 ∧
    (x64JumpSave s ret).1 (s.rsp - 64 + 24) = s.regs.r14 ∧
    (x64JumpSave s ret).1 (s.rsp - 64 + 32) = s.regs.r15 ∧
    (x64JumpSave s ret).1 (s.rsp - 64 + 40) = s.regs.rbx ∧
    (x64JumpSave s ret).1 (s.rsp - 64 + 48) = s.regs.rbp ∧
    (x64JumpSave s ret).1 (s.rsp - 64 + 56) = ret ∧
    (s.regs.rcx ≠ 0 →
      (x64JumpSave s ret).1 (s.rsp - 64) = s.regs.mxcsr ∧
      (x64JumpSave s ret).1 (s.rsp - 64 + 4) = s.regs.fcw) := by
  obtain ⟨k1, k2, k3, k4, k5, k6, k7, k8⟩ := hok
  simp only [x64FrameCells, List.mem_cons, List.not_mem_nil, or_false] at hdi
  push_neg at hdi
  obtain ⟨d0, d4, d8, d16, d24, d32, d40, d48, d56⟩ := hdi
  obtain ⟨a4, aB, a8, a16, a24, a32, a40, a48, a56⟩ := x64FrameArith s.rsp hrsp
  simp only [x64JumpSave]
  rw [a4, aB, a8, a16, a24, a32, a40, a48, a56]
  by_cases hc : s.regs.rcx = 0
  · simp only [if_neg (show ¬¬(s.regs.rcx = 0) from fun h => h hc)]
    refine ⟨?_, ?_, ?_, ?_, ?_, ?_, ?_, fun hcx => (hcx hc).elim⟩
    · rw [
          Mem.store_at_ne _ _ _ _ _ (Ne.symm d8),
          Mem.store_at_same]
      exact Nat.mod_eq_of_lt k3
    · rw [
          Mem.store_at_ne _ _ _ _ _ (Ne.symm d16),
          Mem.store_at_ne _ _ _ _ _ (addOffsetNe _ 16 8 (by decide)),
          Mem.store_at_same]
      exact Nat.mod_eq_of_lt k4
    · rw [
          Mem.store_at_ne _ _ _ _ _ (Ne.symm d24),
          Mem.store_at_ne _ _ _ _ _ (addOffsetNe _ 24 8 (by decide)),
          Mem.store_at_ne _ _ _ _ _ (addOffsetNe _ 24 16 (by decide)),
          Mem.store_at_same]
      exact Nat.mod_eq_of_lt k5
    · rw [
          Mem.store_at_ne _ _ _ _ _ (Ne.symm d32),
          Mem.store_at_ne _ _ _ _ _ (addOffsetNe _ 32 8 (by decide)),
          Mem.store_at_ne _ _ _ _ _ (addOffsetNe _ 32 16 (by decide)),
          Mem.store_at_ne _ _ _ _ _ (addOffsetNe _ 32 24 (by decide)),
          Mem.store_at_same]
      exact Nat.mod_eq_of_lt k6
    · rw [
          Mem.store_at_ne _ _ _ _ _ (Ne.symm d40),
          Mem.store_at_ne _ _ _ _ _ (addOffsetNe _ 40 8 (by decide)),
          Mem.store_at_ne _ _ _ _ _ (addOffsetNe _ 40 16 (by decide)),
          Mem.store_at_ne _ _ _ _ _ (addOffsetNe _ 40 24 (by decide)),
          Mem.store_at_ne _ _ _ _ _ (addOffsetNe _ 40 32 (by decide)),
          Mem.store_at_same]
      exact Nat.mod_eq_of_lt k2
    · rw [
          Mem.store_at_ne _ _ _ _ _ (Ne.symm d48),
          Mem.store_at_ne _ _ _ _ _ (addOffsetNe _ 48 8 (by decide)),
          Mem.store_at_ne _ _ _ _ _ (addOffsetNe _ 48 16 (by decide)),
          Mem.store_at_ne _ _ _ _ _ (addOffsetNe _ 48 24 (by decide)),
          Mem.store_at_ne _ _ _ _ _ (addOffsetNe _ 48 32 (by decide)),
          Mem.store_at_ne _ _ _ _ _ (addOffsetNe _ 48 40 (by decide)),
          Mem.store_at_same]
      exact Nat.mod_eq_of_lt k1
    · rw [
          Mem.store_at_ne _ _ _ _ _ (Ne.symm d56),
          Mem.store_at_ne _ _ _ _ _ (addOffsetNe _ 56 8 (by decide)),
          Mem.store_at_ne _ _ _ _ _ (addOffsetNe _ 56 16 (by decide)),
          Mem.store_at_ne _ _ _ _ _ (addOffsetNe _ 56 24 (by decide)),
          Mem.store_at_ne _ _ _ _ _ (addOffsetNe _ 56 32 (by decide)),
          Mem.store_at_ne _ _ _ _ _ (addOffsetNe _ 56 40 (by decide)),
          Mem.store_at_ne _ _ _ _ _ (addOffsetNe _ 56 48 (by decide)),
          Mem.store_at_same]
      exact Nat.mod_eq_of_lt hret
  · simp only [if_pos hc]
    refine ⟨?_, ?_, ?_, ?_, ?_, ?_, ?_, fun hcx => ⟨?_, ?_⟩⟩
    · rw [
          Mem.store_at_ne _ _ _ _ _ (Ne.symm d8),
          Mem.store_at_ne _ _ _ _ _ (addOffsetNe _ 8 4 (by decide)),
          Mem.store_at_ne _ _ _ _ _ (addOffsetNeBase _ 8 (by decide)),
          Mem.store_at_same]
      exact Nat.mod_eq_of_lt k3
    · rw [
          Mem.store_at_ne _ _ _ _ _ (Ne.symm d16),
          Mem.store_at_ne _ _ _ _ _ (addOffsetNe _ 16 4 (by decide)),
          Mem.store_at_ne _ _ _ _ _ (addOffsetNeBase _ 16 (by decide)),
          Mem.store_at_ne _ _ _ _ _ (addOffsetNe _ 16 8 (by decide)),
          Mem.store_at_same]
      exact Nat.mod_eq_of_lt k4
    · rw [
          Mem.store_at_ne _ _ _ _ _ (Ne.symm d24),
          Mem.store_at_ne _ _ _ _ _ (addOffsetNe _ 24 4 (by decide)),
          Mem.store_at_ne _ _ _ _ _ (addOffsetNeBase _ 24 (by decide)),
          Mem.store_at_ne _ _ _ _ _ (addOffsetNe _ 24 8 (by decide)),
          Mem.store_at_ne _ _ _ _ _ (addOffsetNe _ 24 16 (by decide)),
          Mem.store_at_same]
      exact Nat.mod_eq_of_lt k5
    · rw [
          Mem.store_at_ne _ _ _ _ _ (Ne.symm d32),
          Mem.store_at_ne _ _ _ _ _ (addOffsetNe _ 32 4 (by decide)),
          Mem.store_at_ne _ _ _ _ _ (addOffsetNeBase _ 32 (by decide)),
          Mem.store_at_ne _ _ _ _ _ (addOffsetNe _ 32 8 (by decide)),
          Mem.store_at_ne _ _ _ _ _ (addOffsetNe _ 32 16 (by decide)),
          Mem.store_at_ne _ _ _ _ _ (addOffsetNe _ 32 24 (by decide)),
          Mem.store_at_same]
      exact Nat.mod_eq_of_lt k6
    · rw [
          Mem.store_at_ne _ _ _ _ _ (Ne.symm d40),
          Mem.store_at_ne _ _ _ _ _ (addOffsetNe _ 40 4 (by decide)),
          Mem.store_at_ne _ _ _ _ _ (addOffsetNeBase _ 40 (by decide)),
          Mem.store_at_ne _ _ _ _ _ (addOffsetNe _ 40 8 (by decide)),
          Mem.store_at_ne _ _ _ _ _ (addOffsetNe _ 40 16 (by decide)),
          Mem.store_at_ne _ _ _ _ _ (addOffsetNe _ 40 24 (by decide)),
          Mem.store_at_ne _ _ _ _ _ (addOffsetNe _ 40 32 (by decide)),
          Mem.store_at_same]
      exact Nat.mod_eq_of_lt k2
    · rw [
          Mem.store_at_ne _ _ _ _ _ (Ne.symm d48),
          Mem.store_at_ne _ _ _ _ _ (addOffsetNe _ 48 4 (by decide)),
          Mem.store_at_ne _ _ _ _ _ (addOffsetNeBase _ 48 (by decide)),
          Mem.store_at_ne _ _ _ _ _ (addOffsetNe _ 48 8 (by decide)),
          Mem.store_at_ne _ _ _ _ _ (addOffsetNe _ 48 16 (by decide)),
          Mem.store_at_ne _ _ _ _ _ (addOffsetNe _ 48 24 (by decide)),
          Mem.store_at_ne _ _ _ _ _ (addOffsetNe _ 48 32 (by decide)),
          Mem.store_at_ne _ _ _ _ _ (addOffsetNe _ 48 40 (by decide)),
          Mem.store_at_same]
      exact Nat.mod_eq_of_lt k1
    · rw [
          Mem.store_at_ne _ _ _ _ _ (Ne.symm d56),
          Mem.store_at_ne _ _ _ _ _ (addOffsetNe _ 56 4 (by decide)),
          Mem.store_at_ne _ _ _ _ _ (addOffsetNeBase _ 56 (by decide)),
          Mem.store_at_ne _ _ _ _ _ (addOffsetNe _ 56 8 (by decide)),
          Mem.store_at_ne _ _ _ _ _ (addOffsetNe _ 56 16 (by decide)),
          Mem.store_at_ne _ _ _ _ _ (addOffsetNe _ 56 24 (by decide)),
          Mem.store_at_ne _ _ _ _ _ (addOffsetNe _ 56 32 (by decide)),
          Mem.store_at_ne _ _ _ _ _ (addOffsetNe _ 56 40 (by decide)),
          Mem.store_at_ne _ _ _ _ _ (addOffsetNe _ 56 48 (by decide)),
          Mem.store_at_same]
      exact Nat.mod_eq_of_lt hret
    · rw [
          Mem.store_at_ne _ _ _ _ _ (Ne.symm d0),
          Mem.store_at_ne _ _ _ _ _ (Ne.symm (addOffsetNeBase _ 4 (by decide))),
          Mem.store_at_same]
      exact Nat.mod_eq_of_lt k7
    · rw [
          Mem.store_at_ne _ _ _ _ _ (Ne.symm d4),
          Mem.store_at_same]
      exact Nat.mod_eq_of_lt k8

/-- Claim C2: for two contexts A and B on linux_x86_64, a `bthread_jump_fcontext`
out of A followed by a later `bthread_jump_fcontext` back into the frame A
saved restores the complete register state the routine saved, bit for bit:
the callee-saved general-purpose registers rbp, rbx, r12-r15, the resume
address and the stack pointer always, and the floating-point control state
(mxcsr and the x87 control word) when the preserve-FPU argument (rcx) is
non-zero.  The hypotheses say that the frame cells of A are intact when the second
jump runs (`hframe`), that the second jump targets the saved stack pointer of A
(`hto`), and that both jumps use the same preserve-FPU flag (`hfp`). -/
theorem jump_fcontext_roundtrip_x86_64
    (s s2 : X64State) (ret ret2 : Nat)
    (hrsp : 64 ≤ s.rsp) (hret : ret < 2 ^ 64) (hok : s.regs.ok)
    (hdi : s.regs.rdi ∉ x64FrameCells (s.rsp - 64))
    (hframe : ∀ a ∈ x64FrameCells (s.rsp - 64),
      (x64JumpSave s2 ret2).1 a = (x64JumpSave s ret).1 a)
    (hto : s2.regs.rsi = s.rsp - 64)
    (hfp : s2.regs.rcx = s.regs.rcx) :
    (bthread_jump_fcontext_x86_64 s2 ret2).regs.r12 = s.regs.r12 ∧
    (bthread_jump_fcontext_x86_64 s2 ret2).regs.r13 = s.regs.r13 ∧
    (bthread_jump_fcontext_x86_64 s2 ret2).regs.r14 = s.regs.r14 ∧
    (bthread_jump_fcontext_x86_64 s2 ret2).regs.r15 = s.regs.r15 ∧
    (bthread_jump_fcontext_x86_64 s2 ret2).regs.rbx = s.regs.rbx ∧
    (bthread_jump_fcontext_x86_64 s2 ret2).regs.rbp = s.regs.rbp ∧
    (s.regs.rcx ≠ 0 →
      (bthread_jump_fcontext_x86_64 s2 ret2).regs.mxcsr = s.regs.mxcsr ∧
      (bthread_jump_fcontext_x86_64 s2 ret2).regs.fcw = s.regs.fcw) ∧
    (bthread_jump_fcontext_x86_64 s2 ret2).rip = ret ∧
    (bthread_jump_fcontext_x86_64 s2 ret2).rsp = s.rsp := by
  obtain ⟨k1, k2, k3, k4, k5, k6, k7, k8⟩ := hok
  have hS := x64JumpSave_frame s ret hrsp hret ⟨k1, k2, k3, k4, k5, k6, k7, k8⟩ hdi
  obtain ⟨e8, e16, e24, e32, e40, e48, e56, efp⟩ := hS
  obtain ⟨mB, m4, m8, m16, m24, m32, m40, m48, m56⟩ := x64FrameCells_mem (s.rsp - 64)
  have f0 := hframe (s.rsp - 64) mB
  have f4 := hframe (s.rsp - 64 + 4) m4
  have f8 := hframe (s.rsp - 64 + 8) m8
  have f16 := hframe (s.rsp - 64 + 16) m16
  have f24 := hframe (s.rsp - 64 + 24) m24
  have f32 := hframe (s.rsp - 64 + 32) m32
  have f40 := hframe (s.rsp - 64 + 40) m40
  have f48 := hframe (s.rsp - 64 + 48) m48
  have f56 := hframe (s.rsp - 64 + 56) m56
  refine ⟨?_, ?_, ?_, ?_, ?_, ?_, fun hcx => ⟨?_, ?_⟩, ?_, ?_⟩
  · rw [jumpX86_r12, hto, Mem.load_def, f8, e8]
    exact Nat.mod_eq_of_lt k3
  · rw [jumpX86_r13, hto, Mem.load_def, f16, e16]
    exact Nat.mod_eq_of_lt k4
  · rw [jumpX86_r14, hto, Mem.load_def, f24, e24]
    exact Nat.mod_eq_of_lt k5
  · rw [jumpX86_r15, hto, Mem.load_def, f32, e32]
    exact Nat.mod_eq_of_lt k6
  · rw [jumpX86_rbx, hto, Mem.load_def, f40, e40]
    exact Nat.mod_eq_of_lt k2
  · rw [jumpX86_rbp, hto, Mem.load_def, f48, e48]
    exact Nat.mod_eq_of_lt k1
  · rw [jumpX86_mxcsr, hfp, if_pos hcx, hto, Mem.load_def, f0, (efp hcx).1]
    exact Nat.mod_eq_of_lt k7
  · rw [jumpX86_fcw, hfp, if_pos hcx, hto, Mem.load_def, f4, (efp hcx).2]
    exact Nat.mod_eq_of_lt k8
  · rw [jumpX86_rip, hto, Mem.load_def, f56, e56]
    exact Nat.mod_eq_of_lt hret
  · rw [jumpX86_rsp, hto]
    exact Nat.sub_add_cancel hrsp

/-- A concrete context A for exercising the round-trip theorem: marker values
in the callee-saved registers, preserve-FPU flag set, stack top at 128. -/
def c2StateA : X64State :=
  { regs := { rbp := 1, rbx := 2, r12 := 3, r13 := 4, r14 := 5, r15 := 6,
              rdi := 200, rsi := 0, rdx := 0, rcx := 1, rax := 0, r8 := 0,
              mxcsr := 7, fcw := 8 },
    rsp := 128, rip := 0, mem := fun _ => 0 }

/-- A concrete context B that jumps back into the frame A saved: its target
(rsi) is the saved stack pointer 64 of A, its own stack (rsp 1024) and from-pointer
(rdi 2048) are disjoint from the frame of A, and it runs in the memory written by
the outgoing save of A. -/
def c2StateB : X64State :=
  { regs := { rbp := 11, rbx := 12, r12 := 13, r13 := 14, r14 := 15, r15 := 16,
              rdi := 2048, rsi := 64, rdx := 99, rcx := 1, rax := 0, r8 := 0,
              mxcsr := 17, fcw := 18 },
    rsp := 1024, rip := 0, mem := (x64JumpSave c2StateA 11).1 }

/-- Witness for claim C2 at the concrete pair of contexts `c2StateA`,
`c2StateB`. -/
theorem jump_fcontext_roundtrip_x86_64_witness :
    (64 ≤ c2StateA.rsp ∧ 11 < 2 ^ 64 ∧ c2StateA.regs.ok ∧
     c2StateA.regs.rdi ∉ x64FrameCells (c2StateA.rsp - 64) ∧
     (∀ a ∈ x64FrameCells (c2StateA.rsp - 64),
       (x64JumpSave c2StateB 22).1 a = (x64JumpSave c2StateA 11).1 a) ∧
     c2StateB.regs.rsi = c2StateA.rsp - 64 ∧
     c2StateB.regs.rcx = c2StateA.regs.rcx) ∧
    ((bthread_jump_fcontext_x86_64 c2StateB 22).regs.r12 = c2StateA.regs.r12 ∧
     (bthread_jump_fcontext_x86_64 c2StateB 22).regs.r13 = c2StateA.regs.r13 ∧
     (bthread_jump_fcontext_x86_64 c2StateB 22).regs.r14 = c2StateA.regs.r14 ∧
     (bthread_jump_fcontext_x86_64 c2StateB 22).regs.r15 = c2StateA.regs.r15 ∧
     (bthread_jump_fcontext_x86_64 c2StateB 22).regs.rbx = c2StateA.regs.rbx ∧
     (bthread_jump_fcontext_x86_64 c2StateB 22).regs.rbp = c2StateA.regs.rbp ∧
     (c2StateA.regs.rcx ≠ 0 →
       (bthread_jump_fcontext_x86_64 c2StateB 22).regs.mxcsr = c2StateA.regs.mxcsr ∧
       (bthread_jump_fcontext_x86_64 c2StateB 22).regs.fcw = c2StateA.regs.fcw) ∧
     (bthread_jump_fcontext_x86_64 c2StateB 22).rip = 11 ∧
     (bthread_jump_fcontext_x86_64 c2StateB 22).rsp = c2StateA.rsp) :=
  ⟨⟨by decide, by decide, by decide, by decide, by decide, by decide, by decide⟩,
   jump_fcontext_roundtrip_x86_64 c2StateA c2StateB 11 22 (by decide) (by decide)
     (by decide) (by decide) (by decide) (by decide) (by decide)⟩

/-!
## The linux_arm64 variant (context.cpp lines 619-719)

`bthread_jump_fcontext(from = x0, to = x1, vp = x2, preserve_fpu = w3)` with
the AAPCS64 convention; the return address of the caller sits in x30 (the
link register).  Note that in this variant the test of the preserve-fpu
argument is commented out in the source (lines 636-638 and 660-662): the
registers d8-d15 are saved and reloaded unconditionally.
-/

/-- The registers of the linux_arm64 model that the routines read or write:
x19-x30 (callee-saved and link register), d8-d15 (callee-saved FP data
registers), and the argument/scratch registers x0-x4. -/
structure A64Regs where
  x0 : Nat
  x1 : Nat
  x2 : Nat
  x3 : Nat
  x4 : Nat
  x19 : Nat
  x20 : Nat
  x21 : Nat
  x22 : Nat
  x23 : Nat
  x24 : Nat
  x25 : Nat
  x26 : Nat
  x27 : Nat
  x28 : Nat
  x29 : Nat
  x30 : Nat
  d8 : Nat
  d9 : Nat
  d10 : Nat
  d11 : Nat
  d12 : Nat
  d13 : Nat
  d14 : Nat
  d15 : Nat


/-- A linux_arm64 machine state: registers, stack pointer, program counter,
memory. -/
structure A64State where
  regs : A64Regs
  sp : Nat
  pc : Nat
  mem : Mem

/-- The save half of linux_arm64 `bthread_jump_fcontext` (lines 628-657):
`sub sp, sp, #0xb0`, the unconditional `stp` of d8-d15 at offsets 0x00-0x38
(the test of w3 is commented out in the source), the `stp` of x19-x30 at
offsets 0x40-0x98, `str x30, [sp, #0xa0]` saving the link register as the
resume point, and `str x4, [x0]` publishing the saved stack pointer through
the first argument.  Returns the resulting memory and the saved stack
pointer. -/
def a64JumpSave (s : A64State) : Mem × Nat :=
  let r := s.regs
  let b := s.sp - 0xb0
  let m1 := s.mem.store b 64 r.d8
  let m2 := m1.store (b + 0x8) 64 r.d9
  let m3 := m2.store (b + 0x10) 64 r.d10
  let m4 := m3.store (b + 0x18) 64 r.d11
  let m5 := m4.store (b + 0x20) 64 r.d12
  let m6 := m5.store (b + 0x28) 64 r.d13
  let m7 := m6.store (b + 0x30) 64 r.d14
  let m8 := m7.store (b + 0x38) 64 r.d15
  let m9 := m8.store (b + 0x40) 64 r.x19
  let m10 := m9.store (b + 0x48) 64 r.x20
  let m11 := m10.store (b + 0x50) 64 r.x21
  let m12 := m11.store (b + 0x58) 64 r.x22
  let m13 := m12.store (b + 0x60) 64 r.x23
  let m14 := m13.store (b + 0x68) 64 r.x24
  let m15 := m14.store (b + 0x70) 64 r.x25
  let m16 := m15.store (b + 0x78) 64 r.x26
  let m17 := m16.store (b + 0x80) 64 r.x27
  let m18 := m17.store (b + 0x88) 64 r.x28
  let m19 := m18.store (b + 0x90) 64 r.x29
  let m20 := m19.store (b + 0x98) 64 r.x30
  let m21 := m20.store (b + 0xa0) 64 r.x30
  let m22 := m21.store r.x0 64 b
  (m22, b)

/-- The restore half of linux_arm64 `bthread_jump_fcontext` (lines 658-683):
`mov sp, x1`, the unconditional `ldp` of d8-d15 and of x19-x30, `mov x0, x2`
handing the transfer value through, `ldr x4, [sp, #0xa0]` picking the resume
point, `add sp, sp, #0xb0`, `ret x4`.  Returns the new registers, stack
pointer and program counter. -/
def a64JumpRestore (m : Mem) (r : A64Regs) : A64Regs × Nat × Nat :=
  let tsp := r.x1
  let w8 := m.load tsp 64
  let w9 := m.load (tsp + 0x8) 64
  let w10 := m.load (tsp + 0x10) 64
  let w11 := m.load (tsp + 0x18) 64
  let w12 := m.load (tsp + 0x20) 64
  let w13 := m.load (tsp + 0x28) 64
  let w14 := m.load (tsp + 0x30) 64
  let w15 := m.load (tsp + 0x38) 64
  let y19 := m.load (tsp + 0x40) 64
  let y20 := m.load (tsp + 0x48) 64
  let y21 := m.load (tsp + 0x50) 64
  let y22 := m.load (tsp + 0x58) 64
  let y23 := m.load (tsp + 0x60) 64
  let y24 := m.load (tsp + 0x68) 64
  let y25 := m.load (tsp + 0x70) 64
  let y26 := m.load (tsp + 0x78) 64
  let y27 := m.load (tsp + 0x80) 64
  let y28 := m.load (tsp + 0x88) 64
  let y29 := m.load (tsp + 0x90) 64
  let y30 := m.load (tsp + 0x98) 64
  let vpc := m.load (tsp + 0xa0) 64
  ({ r with d8 := w8, d9 := w9, d10 := w10, d11 := w11, d12 := w12,
            d13 := w13, d14 := w14, d15 := w15,
            x19 := y19, x20 := y20, x21 := y21, x22 := y22, x23 := y23,
            x24 := y24, x25 := y25, x26 := y26, x27 := y27, x28 := y28,
            x29 := y29, x30 := y30, x0 := r.x2, x4 := vpc },
   tsp + 0xb0, vpc)

/-- linux_arm64 `bthread_jump_fcontext` (context.cpp lines 627-683) as one
step; the return address of the caller is in x30 at entry. -/
def bthread_jump_fcontext_arm64 (s : A64State) : A64State :=
  let sv := a64JumpSave s
  let rr := a64JumpRestore sv.1 s.regs
  { regs := rr.1, sp := rr.2.1, pc := rr.2.2, mem := sv.1 }

/-- linux_arm64 `bthread_make_fcontext` (context.cpp lines 698-711):
`x0 := (x0 & ~0xF) - 0xb0`; stores the entry function (x2) at `x0+0xa0` (the
slot the first jump loads as the resume point) and the address of the
`finish` label at `x0+0x98` (the slot the first jump loads into the link
register x30).  `finishAddr` stands for the link-time constant
`adr x1, finish`. -/
def bthread_make_fcontext_arm64 (m : Mem) (stackTop entry finishAddr : Nat) :
    Nat × Mem :=
  let ctx := (stackTop - stackTop % 16) - 0xb0
  let m1 := m.store (ctx + 0xa0) 64 entry
  let m2 := m1.store (ctx + 0x98) 64 finishAddr
  (ctx, m2)

/-- The arm64 `ret` instruction of an entry function returning normally:
branch to the link register x30. -/
def a64Ret (s : A64State) : A64State :=
  { s with pc := s.regs.x30 }

/-!
Field-level unfolding lemmas for the arm64 jump, each holding by
definitional unfolding.
-/

theorem jumpA64_d8 (s : A64State) :
    (bthread_jump_fcontext_arm64 s).regs.d8 =
      Mem.load (a64JumpSave s).1 s.regs.x1 64 := rfl

theorem jumpA64_d15 (s : A64State) :
    (bthread_jump_fcontext_arm64 s).regs.d15 =
      Mem.load (a64JumpSave s).1 (s.regs.x1 + 0x38) 64 := rfl

theorem jumpA64_x30 (s : A64State) :
    (bthread_jump_fcontext_arm64 s).regs.x30 =
      Mem.load (a64JumpSave s).1 (s.regs.x1 + 0x98) 64 := rfl

theorem jumpA64_x0 (s : A64State) :
    (bthread_jump_fcontext_arm64 s).regs.x0 = s.regs.x2 := rfl

theorem jumpA64_pc (s : A64State) :
    (bthread_jump_fcontext_arm64 s).pc =
      Mem.load (a64JumpSave s).1 (s.regs.x1 + 0xa0) 64 := rfl

theorem jumpA64_mem (s : A64State) :
    (bthread_jump_fcontext_arm64 s).mem = (a64JumpSave s).1 := rfl

theorem a64Ret_pc (s : A64State) : (a64Ret s).pc = s.regs.x30 := rfl

/-- Register values of the arm64 model fit their 64-bit hardware width. -/
def A64Regs.ok (r : A64Regs) : Prop :=
  r.x0 < 2 ^ 64 ∧ r.x1 < 2 ^ 64 ∧ r.x2 < 2 ^ 64 ∧ r.x3 < 2 ^ 64 ∧
  r.x4 < 2 ^ 64 ∧ r.x19 < 2 ^ 64 ∧ r.x20 < 2 ^ 64 ∧ r.x21 < 2 ^ 64 ∧
  r.x22 < 2 ^ 64 ∧ r.x23 < 2 ^ 64 ∧ r.x24 < 2 ^ 64 ∧ r.x25 < 2 ^ 64 ∧
  r.x26 < 2 ^ 64 ∧ r.x27 < 2 ^ 64 ∧ r.x28 < 2 ^ 64 ∧ r.x29 < 2 ^ 64 ∧
  r.x30 < 2 ^ 64 ∧ r.d8 < 2 ^ 64 ∧ r.d9 < 2 ^ 64 ∧ r.d10 < 2 ^ 64 ∧
  r.d11 < 2 ^ 64 ∧ r.d12 < 2 ^ 64 ∧ r.d13 < 2 ^ 64 ∧ r.d14 < 2 ^ 64 ∧
  r.d15 < 2 ^ 64

instance (r : A64Regs) : Decidable r.ok := by
  unfold A64Regs.ok; infer_instance

/-- The cells (by base address) of the frame written by the save half of
linux_arm64 `bthread_jump_fcontext`, relative to the saved stack pointer:
d8-d15 at 0x00-0x38, x19-x30 at 0x40-0x98, the resume address at 0xa0. -/
def a64FrameCells (b : Nat) : List Nat :=
  [b, b + 0x8, b + 0x10, b + 0x18, b + 0x20, b + 0x28, b + 0x30, b + 0x38,
   b + 0x40, b + 0x48, b + 0x50, b + 0x58, b + 0x60, b + 0x68, b + 0x70,
   b + 0x78, b + 0x80, b + 0x88, b + 0x90, b + 0x98, b + 0xa0]


theorem a64JumpSave_dcells (s : A64State)
    (_hsp : 0xb0 ≤ s.sp) (hok : s.regs.ok)
    (hx0 : s.regs.x0 ∉ a64FrameCells (s.sp - 0xb0)) :
    (a64JumpSave s).1 (s.sp - 0xb0) = s.regs.d8 ∧
    (a64JumpSave s).1 (s.sp - 0xb0 + 0x8) = s.regs.d9 ∧
    (a64JumpSave s).1 (s.sp - 0xb0 + 0x10) = s.regs.d10 ∧
    (a64JumpSave s).1 (s.sp - 0xb0 + 0x18) = s.regs.d11 ∧
    (a64JumpSave s).1 (s.sp - 0xb0 + 0x20) = s.regs.d12 ∧
    (a64JumpSave s).1 (s.sp - 0xb0 + 0x28) = s.regs.d13 ∧
    (a64JumpSave s).1 (s.sp - 0xb0 + 0x30) = s.regs.d14 ∧
    (a64JumpSave s).1 (s.sp - 0xb0 + 0x38) = s.regs.d15 := by
  obtain ⟨k0, k1, k2, k3, k4, k19, k20, k21, k22, k23, k24, k25, k26, k27,
    k28, k29, k30, e8, e9, e10, e11, e12, e13, e14, e15⟩ := hok
  simp only [a64FrameCells, List.mem_cons, List.not_mem_nil, or_false] at hx0
  push_neg at hx0
  obtain ⟨g0, g1, g2, g3, g4, g5, g6, g7, g8, g9, g10, g11, g12, g13, g14,
    g15, g16, g17, g18, g19, g20⟩ := hx0
  simp only [a64JumpSave]
  refine ⟨?_, ?_, ?_, ?_, ?_, ?_, ?_, ?_⟩
  · rw [
        Mem.store_at_ne _ _ _ _ _ (Ne.symm g0),
        Mem.store_at_ne _ _ _ _ _ (Ne.symm (addOffsetNeBase _ 0xa0 (by decide))),
        Mem.store_at_ne _ _ _ _ _ (Ne.symm (addOffsetNeBase _ 0x98 (by decide))),
        Mem.store_at_ne _ _ _ _ _ (Ne.symm (addOffsetNeBase _ 0x90 (by decide))),
        Mem.store_at_ne _ _ _ _ _ (Ne.symm (addOffsetNeBase _ 0x88 (by decide))),
        Mem.store_at_ne _ _ _ _ _ (Ne.symm (addOffsetNeBase _ 0x80 (by decide))),
        Mem.store_at_ne _ _ _ _ _ (Ne.symm (addOffsetNeBase _ 0x78 (by decide))),
        Mem.store_at_ne _ _ _ _ _ (Ne.symm (addOffsetNeBase _ 0x70 (by decide))),
        Mem.store_at_ne _ _ _ _ _ (Ne.symm (addOffsetNeBase _ 0x68 (by decide))),
        Mem.store_at_ne _ _ _ _ _ (Ne.symm (addOffsetNeBase _ 0x60 (by decide))),
        Mem.store_at_ne _ _ _ _ _ (Ne.symm (addOffsetNeBase _ 0x58 (by decide))),
        Mem.store_at_ne _ _ _ _ _ (Ne.symm (addOffsetNeBase _ 0x50 (by decide))),
        Mem.store_at_ne _ _ _ _ _ (Ne.symm (addOffsetNeBase _ 0x48 (by decide))),
        Mem.store_at_ne _ _ _ _ _ (Ne.symm (addOffsetNeBase _ 0x40 (by decide))),
        Mem.store_at_ne _ _ _ _ _ (Ne.symm (addOffsetNeBase _ 0x38 (by decide))),
        Mem.store_at_ne _ _ _ _ _ (Ne.symm (addOffsetNeBase _ 0x30 (by decide))),
        Mem.store_at_ne _ _ _ _ _ (Ne.symm (addOffsetNeBase _ 0x28 (by decide))),
        Mem.store_at_ne _ _ _ _ _ (Ne.symm (addOffsetNeBase _ 0x20 (by decide))),
        Mem.store_at_ne _ _ _ _ _ (Ne.symm (addOffsetNeBase _ 0x18 (by decide))),
        Mem.store_at_ne _ _ _ _ _ (Ne.symm (addOffsetNeBase _ 0x10 (by decide))),
        Mem.store_at_ne _ _ _ _ _ (Ne.symm (addOffsetNeBase _ 0x8 (by decide))),
        Mem.store_at_same]
    exact Nat.mod_eq_of_lt e8
  · rw [
        Mem.store_at_ne _ _ _ _ _ (Ne.symm g1),
        Mem.store_at_ne _ _ _ _ _ (addOffsetNe _ 0x8 0xa0 (by decide)),
        Mem.store_at_ne _ _ _ _ _ (addOffsetNe _ 0x8 0x98 (by decide)),
        Mem.store_at_ne _ _ _ _ _ (addOffsetNe _ 0x8 0x90 (by decide)),
        Mem.store_at_ne _ _ _ _ _ (addOffsetNe _ 0x8 0x88 (by decide)),
        Mem.store_at_ne _ _ _ _ _ (addOffsetNe _ 0x8 0x80 (by decide)),
        Mem.store_at_ne _ _ _ _ _ (addOffsetNe _ 0x8 0x78 (by decide)),
        Mem.store_at_ne _ _ _ _ _ (addOffsetNe _ 0x8 0x70 (by decide)),
        Mem.store_at_ne _ _ _ _ _ (addOffsetNe _ 0x8 0x68 (by decide)),
        Mem.store_at_ne _ _ _ _ _ (addOffsetNe _ 0x8 0x60 (by decide)),
        Mem.store_at_ne _ _ _ _ _ (addOffsetNe _ 0x8 0x58 (by decide)),
        Mem.store_at_ne _ _ _ _ _ (addOffsetNe _ 0x8 0x50 (by decide)),
        Mem.store_at_ne _ _ _ _ _ (addOffsetNe _ 0x8 0x48 (by decide)),
        Mem.store_at_ne _ _ _ _ _ (addOffsetNe _ 0x8 0x40 (by decide)),
        Mem.store_at_ne _ _ _ _ _ (addOffsetNe _ 0x8 0x38 (by decide)),
        Mem.store_at_ne _ _ _ _ _ (addOffsetNe _ 0x8 0x30 (by decide)),
        Mem.store_at_ne _ _ _ _ _ (addOffsetNe _ 0x8 0x28 (by decide)),
        Mem.store_at_ne _ _ _ _ _ (addOffsetNe _ 0x8 0x20 (by decide)),
        Mem.store_at_ne _ _ _ _ _ (addOffsetNe _ 0x8 0x18 (by decide)),
        Mem.store_at_ne _ _ _ _ _ (addOffsetNe _ 0x8 0x10 (by decide)),
        Mem.store_at_same]
    exact Nat.mod_eq_of_lt e9
  · rw [
        Mem.store_at_ne _ _ _ _ _ (Ne.symm g2),
        Mem.store_at_ne _ _ _ _ _ (addOffsetNe _ 0x10 0xa0 (by decide)),
        Mem.store_at_ne _ _ _ _ _ (addOffsetNe _ 0x10 0x98 (by decide)),
        Mem.store_at_ne _ _ _ _ _ (addOffsetNe _ 0x10 0x90 (by decide)),
        Mem.store_at_ne _ _ _ _ _ (addOffsetNe _ 0x10 0x88 (by decide)),
        Mem.store_at_ne _ _ _ _ _ (addOffsetNe _ 0x10 0x80 (by decide)),
        Mem.store_at_ne _ _ _ _ _ (addOffsetNe _ 0x10 0x78 (by decide)),
        Mem.store_at_ne _ _ _ _ _ (addOffsetNe _ 0x10 0x70 (by decide)),
        Mem.store_at_ne _ _ _ _ _ (addOffsetNe _ 0x10 0x68 (by decide)),
        Mem.store_at_ne _ _ _ _ _ (addOffsetNe _ 0x10 0x60 (by decide)),
        Mem.store_at_ne _ _ _ _ _ (addOffsetNe _ 0x10 0x58 (by decide)),
        Mem.store_at_ne _ _ _ _ _ (addOffsetNe _ 0x10 0x50 (by decide)),
        Mem.store_at_ne _ _ _ _ _ (addOffsetNe _ 0x10 0x48 (by decide)),
        Mem.store_at_ne _ _ _ _ _ (addOffsetNe _ 0x10 0x40 (by decide)),
        Mem.store_at_ne _ _ _ _ _ (addOffsetNe _ 0x10 0x38 (by decide)),
        Mem.store_at_ne _ _ _ _ _ (addOffsetNe _ 0x10 0x30 (by decide)),
        Mem.store_at_ne _ _ _ _ _ (addOffsetNe _ 0x10 0x28 (by decide)),
        Mem.store_at_ne _ _ _ _ _ (addOffsetNe _ 0x10 0x20 (by decide)),
        Mem.store_at_ne _ _ _ _ _ (addOffsetNe _ 0x10 0x18 (by decide)),
        Mem.store_at_same]
    exact Nat.mod_eq_of_lt e10
  · rw [
        Mem.store_at_ne _ _ _ _ _ (Ne.symm g3),
        Mem.store_at_ne _ _ _ _ _ (addOffsetNe _ 0x18 0xa0 (by decide)),
        Mem.store_at_ne _ _ _ _ _ (addOffsetNe _ 0x18 0x98 (by decide)),
        Mem.store_at_ne _ _ _ _ _ (addOffsetNe _ 0x18 0x90 (by decide)),
        Mem.store_at_ne _ _ _ _ _ (addOffsetNe _ 0x18 0x88 (by decide)),
        Mem.store_at_ne _ _ _ _ _ (addOffsetNe _ 0x18 0x80 (by decide)),
        Mem.store_at_ne _ _ _ _ _ (addOffsetNe _ 0x18 0x78 (by decide)),
        Mem.store_at_ne _ _ _ _ _ (addOffsetNe _ 0x18 0x70 (by decide)),
        Mem.store_at_ne _ _ _ _ _ (addOffsetNe _ 0x18 0x68 (by decide)),
        Mem.store_at_ne _ _ _ _ _ (addOffsetNe _ 0x18 0x60 (by decide)),
        Mem.store_at_ne _ _ _ _ _ (addOffsetNe _ 0x18 0x58 (by decide)),
        Mem.store_at_ne _ _ _ _ _ (addOffsetNe _ 0x18 0x50 (by decide)),
        Mem.store_at_ne _ _ _ _ _ (addOffsetNe _ 0x18 0x48 (by decide)),
        Mem.store_at_ne _ _ _ _ _ (addOffsetNe _ 0x18 0x40 (by decide)),
        Mem.store_at_ne _ _ _ _ _ (addOffsetNe _ 0x18 0x38 (by decide)),
        Mem.store_at_ne _ _ _ _ _ (addOffsetNe _ 0x18 0x30 (by decide)),
        Mem.store_at_ne _ _ _ _ _ (addOffsetNe _ 0x18 0x28 (by decide)),
        Mem.store_at_ne _ _ _ _ _ (addOffsetNe _ 0x18 0x20 (by decide)),
        Mem.store_at_same]
    exact Nat.mod_eq_of_lt e11
  · rw [
        Mem.store_at_ne _ _ _ _ _ (Ne.symm g4),
        Mem.store_at_ne _ _ _ _ _ (addOffsetNe _ 0x20 0xa0 (by decide)),
        Mem.store_at_ne _ _ _ _ _ (addOffsetNe _ 0x20 0x98 (by decide)),
        Mem.store_at_ne _ _ _ _ _ (addOffsetNe _ 0x20 0x90 (by decide)),
        Mem.store_at_ne _ _ _ _ _ (addOffsetNe _ 0x20 0x88 (by decide)),
        Mem.store_at_ne _ _ _ _ _ (addOffsetNe _ 0x20 0x80 (by decide)),
        Mem.store_at_ne _ _ _ _ _ (addOffsetNe _ 0x20 0x78 (by decide)),
        Mem.store_at_ne _ _ _ _ _ (addOffsetNe _ 0x20 0x70 (by decide)),
        Mem.store_at_ne _ _ _ _ _ (addOffsetNe _ 0x20 0x68 (by decide)),
        Mem.store_at_ne _ _ _ _ _ (addOffsetNe _ 0x20 0x60 (by decide)),
        Mem.store_at_ne _ _ _ _ _ (addOffsetNe _ 0x20 0x58 (by decide)),
        Mem.store_at_ne _ _ _ _ _ (addOffsetNe _ 0x20 0x50 (by decide)),
        Mem.store_at_ne _ _ _ _ _ (addOffsetNe _ 0x20 0x48 (by decide)),
        Mem.store_at_ne _ _ _ _ _ (addOffsetNe _ 0x20 0x40 (by decide)),
        Mem.store_at_ne _ _ _ _ _ (addOffsetNe _ 0x20 0x38 (by decide)),
        Mem.store_at_ne _ _ _ _ _ (addOffsetNe _ 0x20 0x30 (by decide)),
        Mem.store_at_ne _ _ _ _ _ (addOffsetNe _ 0x20 0x28 (by decide)),
        Mem.store_at_same]
    exact Nat.mod_eq_of_lt e12
  · rw [
        Mem.store_at_ne _ _ _ _ _ (Ne.symm g5),
        Mem.store_at_ne _ _ _ _ _ (addOffsetNe _ 0x28 0xa0 (by decide)),
        Mem.store_at_ne _ _ _ _ _ (addOffsetNe _ 0x28 0x98 (by decide)),
        Mem.store_at_ne _ _ _ _ _ (addOffsetNe _ 0x28 0x90 (by decide)),
        Mem.store_at_ne _ _ _ _ _ (addOffsetNe _ 0x28 0x88 (by decide)),
        Mem.store_at_ne _ _ _ _ _ (addOffsetNe _ 0x28 0x80 (by decide)),
        Mem.store_at_ne _ _ _ _ _ (addOffsetNe _ 0x28 0x78 (by decide)),
        Mem.store_at_ne _ _ _ _ _ (addOffsetNe _ 0x28 0x70 (by decide)),
        Mem.store_at_ne _ _ _ _ _ (addOffsetNe _ 0x28 0x68 (by decide)),
        Mem.store_at_ne _ _ _ _ _ (addOffsetNe _ 0x28 0x60 (by decide)),
        Mem.store_at_ne _ _ _ _ _ (addOffsetNe _ 0x28 0x58 (by decide)),
        Mem.store_at_ne _ _ _ _ _ (addOffsetNe _ 0x28 0x50 (by decide)),
        Mem.store_at_ne _ _ _ _ _ (addOffsetNe _ 0x28 0x48 (by decide)),
        Mem.store_at_ne _ _ _ _ _ (addOffsetNe _ 0x28 0x40 (by decide)),
        Mem.store_at_ne _ _ _ _ _ (addOffsetNe _ 0x28 0x38 (by decide)),
        Mem.store_at_ne _ _ _ _ _ (addOffsetNe _ 0x28 0x30 (by decide)),
        Mem.store_at_same]
    exact Nat.mod_eq_of_lt e13
  · rw [
        Mem.store_at_ne _ _ _ _ _ (Ne.symm g6),
        Mem.store_at_ne _ _ _ _ _ (addOffsetNe _ 0x30 0xa0 (by decide)),
        Mem.store_at_ne _ _ _ _ _ (addOffsetNe _ 0x30 0x98 (by decide)),
        Mem.store_at_ne _ _ _ _ _ (addOffsetNe _ 0x30 0x90 (by decide)),
        Mem.store_at_ne _ _ _ _ _ (addOffsetNe _ 0x30 0x88 (by decide)),
        Mem.store_at_ne _ _ _ _ _ (addOffsetNe _ 0x30 0x80 (by decide)),
        Mem.store_at_ne _ _ _ _ _ (addOffsetNe _ 0x30 0x78 (by decide)),
        Mem.store_at_ne _ _ _ _ _ (addOffsetNe _ 0x30 0x70 (by decide)),
        Mem.store_at_ne _ _ _ _ _ (addOffsetNe _ 0x30 0x68 (by decide)),
        Mem.store_at_ne _ _ _ _ _ (addOffsetNe _ 0x30 0x60 (by decide)),
        Mem.store_at_ne _ _ _ _ _ (addOffsetNe _ 0x30 0x58 (by decide)),
        Mem.store_at_ne _ _ _ _ _ (addOffsetNe _ 0x30 0x50 (by decide)),
        Mem.store_at_ne _ _ _ _ _ (addOffsetNe _ 0x30 0x48 (by decide)),
        Mem.store_at_ne _ _ _ _ _ (addOffsetNe _ 0x30 0x40 (by decide)),
        Mem.store_at_ne _ _ _ _ _ (addOffsetNe _ 0x30 0x38 (by decide)),
        Mem.store_at_same]
    exact Nat.mod_eq_of_lt e14
  · rw [
        Mem.store_at_ne _ _ _ _ _ (Ne.symm g7),
        Mem.store_at_ne _ _ _ _ _ (addOffsetNe _ 0x38 0xa0 (by decide)),
        Mem.store_at_ne _ _ _ _ _ (addOffsetNe _ 0x38 0x98 (by decide)),
        Mem.store_at_ne _ _ _ _ _ (addOffsetNe _ 0x38 0x90 (by decide)),
        Mem.store_at_ne _ _ _ _ _ (addOffsetNe _ 0x38 0x88 (by decide)),
        Mem.store_at_ne _ _ _ _ _ (addOffsetNe _ 0x38 0x80 (by decide)),
        Mem.store_at_ne _ _ _ _ _ (addOffsetNe _ 0x38 0x78 (by decide)),
        Mem.store_at_ne _ _ _ _ _ (addOffsetNe _ 0x38 0x70 (by decide)),
        Mem.store_at_ne _ _ _ _ _ (addOffsetNe _ 0x38 0x68 (by decide)),
        Mem.store_at_ne _ _ _ _ _ (addOffsetNe _ 0x38 0x60 (by decide)),
        Mem.store_at_ne _ _ _ _ _ (addOffsetNe _ 0x38 0x58 (by decide)),
        Mem.store_at_ne _ _ _ _ _ (addOffsetNe _ 0x38 0x50 (by decide)),
        Mem.store_at_ne _ _ _ _ _ (addOffsetNe _ 0x38 0x48 (by decide)),
        Mem.store_at_ne _ _ _ _ _ (addOffsetNe _ 0x38 0x40 (by decide)),
        Mem.store_at_same]
    exact Nat.mod_eq_of_lt e15

/-- A concrete linux_arm64 state with the preserve-FP argument x3 = 0 and a
marker value 5 in the FP data register d8. -/
def c4State : A64State :=
  { regs := { x0 := 0x400, x1 := 0x300, x2 := 0, x3 := 0, x4 := 0,
              x19 := 0, x20 := 0, x21 := 0, x22 := 0, x23 := 0, x24 := 0,
              x25 := 0, x26 := 0, x27 := 0, x28 := 0, x29 := 0, x30 := 0,
              d8 := 5, d9 := 0, d10 := 0, d11 := 0, d12 := 0, d13 := 0,
              d14 := 0, d15 := 0 },
    sp := 0x200, pc := 0, mem := fun _ => 0 }

/-- Claim C4 counterexample: on linux_arm64 the preserve-FP flag does not
control the saving of floating-point state.  At the concrete state `c4State`
with x3 = 0 (preserve false), `bthread_jump_fcontext` still writes the FP
data register d8 (marker 5) into the save frame at `sp - 0xb0` (the cell
changes from 0 to 5), and still reloads d8 from the target frame (d8 becomes
0, the target memory content, losing the marker): floating-point state is
saved and restored although the flag is false, refuting the claim as stated
for this variant. -/
theorem jump_fcontext_arm64_fp_saved_despite_flag_false :
    c4State.regs.x3 = 0 ∧
    c4State.mem (c4State.sp - 0xb0) = 0 ∧
    (bthread_jump_fcontext_arm64 c4State).mem (c4State.sp - 0xb0) = 5 ∧
    (bthread_jump_fcontext_arm64 c4State).mem (c4State.sp - 0xb0) ≠
      c4State.mem (c4State.sp - 0xb0) ∧
    c4State.regs.d8 = 5 ∧
    (bthread_jump_fcontext_arm64 c4State).regs.d8 = 0 := by
  refine ⟨rfl, rfl, by decide, by decide, rfl, by decide⟩

/-- Claim C4 amended: the preserve-FP toggle governs the floating-point
environment only on the x86 variant.  On linux_x86_64, when the flag (rcx)
is zero the two FP-control cells of the save frame keep their previous
memory contents and the mxcsr / x87-control-word registers pass through the
switch unchanged, and when the flag is non-zero the outgoing side stores
mxcsr and the control word into the frame and the incoming side reloads both
from the target frame.  On linux_arm64 the flag is ignored: the FP data
registers d8-d15 are stored into the save frame and reloaded from the target
frame unconditionally (the flag test is commented out in the source), and
the entire outcome of the switch is independent of the value of x3. -/
theorem jump_fcontext_fp_toggle_amended :
    (∀ (s : X64State) (ret : Nat), 64 ≤ s.rsp →
      s.regs.rdi ∉ x64FrameCells (s.rsp - 64) → s.regs.rcx = 0 →
        (x64JumpSave s ret).1 (s.rsp - 64) = s.mem (s.rsp - 64) ∧
        (x64JumpSave s ret).1 (s.rsp - 64 + 4) = s.mem (s.rsp - 64 + 4) ∧
        (bthread_jump_fcontext_x86_64 s ret).regs.mxcsr = s.regs.mxcsr ∧
        (bthread_jump_fcontext_x86_64 s ret).regs.fcw = s.regs.fcw) ∧
    (∀ (s : X64State) (ret : Nat), 64 ≤ s.rsp → ret < 2 ^ 64 → s.regs.ok →
      s.regs.rdi ∉ x64FrameCells (s.rsp - 64) → s.regs.rcx ≠ 0 →
        (x64JumpSave s ret).1 (s.rsp - 64) = s.regs.mxcsr ∧
        (x64JumpSave s ret).1 (s.rsp - 64 + 4) = s.regs.fcw ∧
        (bthread_jump_fcontext_x86_64 s ret).regs.mxcsr =
          Mem.load (x64JumpSave s ret).1 s.regs.rsi 32 ∧
        (bthread_jump_fcontext_x86_64 s ret).regs.fcw =
          Mem.load (x64JumpSave s ret).1 (s.regs.rsi + 4) 16) ∧
    (∀ (s : A64State), 0xb0 ≤ s.sp → s.regs.ok →
      s.regs.x0 ∉ a64FrameCells (s.sp - 0xb0) →
        (a64JumpSave s).1 (s.sp - 0xb0) = s.regs.d8 ∧
        (a64JumpSave s).1 (s.sp - 0xb0 + 0x8) = s.regs.d9 ∧
        (a64JumpSave s).1 (s.sp - 0xb0 + 0x10) = s.regs.d10 ∧
        (a64JumpSave s).1 (s.sp - 0xb0 + 0x18) = s.regs.d11 ∧
        (a64JumpSave s).1 (s.sp - 0xb0 + 0x20) = s.regs.d12 ∧
        (a64JumpSave s).1 (s.sp - 0xb0 + 0x28) = s.regs.d13 ∧
        (a64JumpSave s).1 (s.sp - 0xb0 + 0x30) = s.regs.d14 ∧
        (a64JumpSave s).1 (s.sp - 0xb0 + 0x38) = s.regs.d15) ∧
    (∀ (s : A64State),
        (bthread_jump_fcontext_arm64 s).regs.d8 =
          Mem.load (a64JumpSave s).1 s.regs.x1 64 ∧
        (bthread_jump_fcontext_arm64 s).regs.d15 =
          Mem.load (a64JumpSave s).1 (s.regs.x1 + 0x38) 64) ∧
    (∀ (s : A64State) (v : Nat),
        bthread_jump_fcontext_arm64 { s with regs := { s.regs with x3 := v } } =
          { bthread_jump_fcontext_arm64 s with
              regs := { (bthread_jump_fcontext_arm64 s).regs with x3 := v } }) := by
  refine ⟨?_, ?_, ?_, ?_, ?_⟩
  · intro s ret hrsp hdi hc0
    simp only [x64FrameCells, List.mem_cons, List.not_mem_nil, or_false] at hdi
    push_neg at hdi
    obtain ⟨d0, d4, d8, d16, d24, d32, d40, d48, d56⟩ := hdi
    obtain ⟨a4, aB, a8, a16, a24, a32, a40, a48, a56⟩ := x64FrameArith s.rsp hrsp
    refine ⟨?_, ?_, ?_, ?_⟩
    · simp only [x64JumpSave, if_neg (show ¬¬(s.regs.rcx = 0) from fun h => h hc0)]
      rw [aB, a8, a16, a24, a32, a40, a48, a56,
        Mem.store_at_ne _ _ _ _ _ (Ne.symm d0),
        Mem.store_at_ne _ _ _ _ _ (Ne.symm (addOffsetNeBase _ 8 (by decide))),
        Mem.store_at_ne _ _ _ _ _ (Ne.symm (addOffsetNeBase _ 16 (by decide))),
        Mem.store_at_ne _ _ _ _ _ (Ne.symm (addOffsetNeBase _ 24 (by decide))),
        Mem.store_at_ne _ _ _ _ _ (Ne.symm (addOffsetNeBase _ 32 (by decide))),
        Mem.store_at_ne _ _ _ _ _ (Ne.symm (addOffsetNeBase _ 40 (by decide))),
        Mem.store_at_ne _ _ _ _ _ (Ne.symm (addOffsetNeBase _ 48 (by decide))),
        Mem.store_at_ne _ _ _ _ _ (Ne.symm (addOffsetNeBase _ 56 (by decide)))]
    · simp only [x64JumpSave, if_neg (show ¬¬(s.regs.rcx = 0) from fun h => h hc0)]
      rw [aB, a8, a16, a24, a32, a40, a48, a56,
        Mem.store_at_ne _ _ _ _ _ (Ne.symm d4),
        Mem.store_at_ne _ _ _ _ _ (addOffsetNe _ 4 8 (by decide)),
        Mem.store_at_ne _ _ _ _ _ (addOffsetNe _ 4 16 (by decide)),
        Mem.store_at_ne _ _ _ _ _ (addOffsetNe _ 4 24 (by decide)),
        Mem.store_at_ne _ _ _ _ _ (addOffsetNe _ 4 32 (by decide)),
        Mem.store_at_ne _ _ _ _ _ (addOffsetNe _ 4 40 (by decide)),
        Mem.store_at_ne _ _ _ _ _ (addOffsetNe _ 4 48 (by decide)),
        Mem.store_at_ne _ _ _ _ _ (addOffsetNe _ 4 56 (by decide))]
    · rw [jumpX86_mxcsr, if_neg (show ¬¬(s.regs.rcx = 0) from fun h => h hc0)]
    · rw [jumpX86_fcw, if_neg (show ¬¬(s.regs.rcx = 0) from fun h => h hc0)]
  · intro s ret hrsp hret hok hdi hcx
    have hS := x64JumpSave_frame s ret hrsp hret hok hdi
    refine ⟨(hS.2.2.2.2.2.2.2 hcx).1, (hS.2.2.2.2.2.2.2 hcx).2, ?_, ?_⟩
    · rw [jumpX86_mxcsr, if_pos hcx]
    · rw [jumpX86_fcw, if_pos hcx]
  · intro s hsp hok hx0
    exact a64JumpSave_dcells s hsp hok hx0
  · intro s
    exact ⟨rfl, rfl⟩
  · intro s v
    rfl

/-- A concrete linux_x86_64 state with the preserve-FP flag rcx = 0. -/
def c4x86Zero : X64State :=
  { regs := { rbp := 1, rbx := 2, r12 := 3, r13 := 4, r14 := 5, r15 := 6,
              rdi := 300, rsi := 64, rdx := 0, rcx := 0, rax := 0, r8 := 0,
              mxcsr := 7, fcw := 8 },
    rsp := 128, rip := 0, mem := fun _ => 0 }

/-- A concrete linux_x86_64 state with the preserve-FP flag rcx = 1. -/
def c4x86One : X64State :=
  { regs := { rbp := 1, rbx := 2, r12 := 3, r13 := 4, r14 := 5, r15 := 6,
              rdi := 300, rsi := 64, rdx := 0, rcx := 1, rax := 0, r8 := 0,
              mxcsr := 7, fcw := 8 },
    rsp := 128, rip := 0, mem := fun _ => 0 }

/-- Witness for the amended claim C4 at concrete states on both variants. -/
theorem jump_fcontext_fp_toggle_amended_witness :
    (64 ≤ c4x86Zero.rsp ∧
     c4x86Zero.regs.rdi ∉ x64FrameCells (c4x86Zero.rsp - 64) ∧
     c4x86Zero.regs.rcx = 0 ∧
     ((x64JumpSave c4x86Zero 9).1 (c4x86Zero.rsp - 64) =
        c4x86Zero.mem (c4x86Zero.rsp - 64) ∧
      (x64JumpSave c4x86Zero 9).1 (c4x86Zero.rsp - 64 + 4) =
        c4x86Zero.mem (c4x86Zero.rsp - 64 + 4) ∧
      (bthread_jump_fcontext_x86_64 c4x86Zero 9).regs.mxcsr =
        c4x86Zero.regs.mxcsr ∧
      (bthread_jump_fcontext_x86_64 c4x86Zero 9).regs.fcw =
        c4x86Zero.regs.fcw)) ∧
    (64 ≤ c4x86One.rsp ∧ 9 < 2 ^ 64 ∧ c4x86One.regs.ok ∧
     c4x86One.regs.rdi ∉ x64FrameCells (c4x86One.rsp - 64) ∧
     c4x86One.regs.rcx ≠ 0 ∧
     ((x64JumpSave c4x86One 9).1 (c4x86One.rsp - 64) = c4x86One.regs.mxcsr ∧
      (x64JumpSave c4x86One 9).1 (c4x86One.rsp - 64 + 4) = c4x86One.regs.fcw ∧
      (bthread_jump_fcontext_x86_64 c4x86One 9).regs.mxcsr =
        Mem.load (x64JumpSave c4x86One 9).1 c4x86One.regs.rsi 32 ∧
      (bthread_jump_fcontext_x86_64 c4x86One 9).regs.fcw =
        Mem.load (x64JumpSave c4x86One 9).1 (c4x86One.regs.rsi + 4) 16)) ∧
    (0xb0 ≤ c4State.sp ∧ c4State.regs.ok ∧
     c4State.regs.x0 ∉ a64FrameCells (c4State.sp - 0xb0) ∧
     (a64JumpSave c4State).1 (c4State.sp - 0xb0) = c4State.regs.d8) ∧
    ((bthread_jump_fcontext_arm64 c4State).regs.d8 =
       Mem.load (a64JumpSave c4State).1 c4State.regs.x1 64) ∧
    (bthread_jump_fcontext_arm64
        { c4State with regs := { c4State.regs with x3 := 1 } } =
      { bthread_jump_fcontext_arm64 c4State with
          regs := { (bthread_jump_fcontext_arm64 c4State).regs with x3 := 1 } }) :=
  ⟨⟨by decide, by decide, by decide,
    jump_fcontext_fp_toggle_amended.1 c4x86Zero 9 (by decide) (by decide) (by decide)⟩,
   ⟨by decide, by decide, by decide, by decide, by decide,
    jump_fcontext_fp_toggle_amended.2.1 c4x86One 9 (by decide) (by decide)
      (by decide) (by decide) (by decide)⟩,
   ⟨by decide, by decide, by decide,
    (jump_fcontext_fp_toggle_amended.2.2.1 c4State (by decide) (by decide)
      (by decide)).1⟩,
   (jump_fcontext_fp_toggle_amended.2.2.2.1 c4State).1,
   jump_fcontext_fp_toggle_amended.2.2.2.2 c4State 1⟩

/-!
## The finish trampolines of all eight architecture variants

Each `bthread_make_fcontext` pre-seeds the address of its local `finish`
label as the return address of the entry function, so that an entry function
returning normally falls into `finish`.
-/

/-- The eight architecture variants implemented in context.cpp. -/
inductive ContextVariant
  | windows_i386
  | windows_x86_64
  | linux_i386
  | linux_x86_64
  | apple_x86_64
  | apple_i386
  | linux_arm32
  | linux_arm64
  deriving DecidableEq

/-- The terminal action of a `finish` trampoline: either a call to the C
function `_exit` with the given status, or a direct call to a fixed absolute
code address. -/
inductive FinishAct
  | exitRaw (status : Nat)
  | callAbsolute (addr : Nat)


/-- How a process ends: `exited status ranHandlers` for an exit with the
given status (`ranHandlers` records whether atexit handlers and static
destructors run), `aborted` for an abnormal abort. -/
inductive ProcTermination
  | exited (status : Nat) (ranHandlers : Bool)
  | aborted


/-- The process-level effect of a finish action.  `_exit` terminates the
process immediately with the given status and, per the C standard, does not
run atexit handlers or static destructors; a call to a fixed absolute
address is not a termination primitive, so no termination is ascribed to
it. -/
def FinishAct.terminate : FinishAct → Option ProcTermination
  | .exitRaw st => some (.exited st false)
  | .callAbsolute _ => none

/-- The terminal action of the finish trampoline of each variant, transcribed
from context.cpp.  All variants zero the status and call `_exit`, except
windows_x86_64 (lines 254-257), whose generated code reads
`xor %rcx,%rcx; callq 0x63; hlt` - a call to the absolute address 0x63
instead of a call to `_exit` (the trailing `.def _exit` declaration in the
same block shows `_exit` was intended):
windows_i386 lines 122-126, linux_i386 lines 327-334,
linux_x86_64 lines 402-405, apple_x86_64 lines 469-472,
apple_i386 lines 535-539, linux_arm32 lines 608-612,
linux_arm64 lines 712-716. -/
def finishAct : ContextVariant → FinishAct
  | .windows_i386 => .exitRaw 0
  | .windows_x86_64 => .callAbsolute 0x63
  | .linux_i386 => .exitRaw 0
  | .linux_x86_64 => .exitRaw 0
  | .apple_x86_64 => .exitRaw 0
  | .apple_i386 => .exitRaw 0
  | .linux_arm32 => .exitRaw 0
  | .linux_arm64 => .exitRaw 0

/-- The linux_x86_64 finish trampoline (lines 402-404) as a function of the
incoming rdi: `xorq %rdi,%rdi` zeroes the status register, then
`call _exit@PLT` exits with it. -/
def finish_linux_x86_64 (rdi : Nat) : FinishAct :=
  let rdi0 := rdi - rdi
  .exitRaw rdi0

/-- The windows_i386 finish trampoline (lines 122-125) as a function of the
stack pointer and memory at entry: `xor %eax,%eax` zeroes eax,
`mov %eax,(%esp)` stores it into the argument slot, and `call _exit` exits
with the argument read from that slot. -/
def finish_windows_i386 (esp : Nat) (m : Mem) : FinishAct :=
  let eax := 0
  let m1 := m.store esp 32 eax
  .exitRaw (m1.load esp 32)

set_option maxRecDepth 4000 in
/-- Claim C3: a context built by `bthread_make_fcontext`, when first jumped
into, starts executing at its entry function, with the stack arranged so
that a normal return from the entry function transfers control to the
`finish` trampoline the maker pre-seeded (shown for the two fully modelled
variants, linux_x86_64 and linux_arm64); the finish trampoline of every
variant except windows_x86_64 terminates the process by calling `_exit 0`;
the windows_x86_64 finish trampoline instead performs a call to the fixed
absolute address 0x63 (a slip in the generated code - `_exit` is declared in
the same block but never called), to which no process termination can be
ascribed. -/
theorem fresh_context_return_reaches_finish :
    (∀ (m : Mem) (mx fc top entry fin ret2 : Nat) (s2 : X64State) (ctx : Nat),
      entry < 2 ^ 64 → fin < 2 ^ 64 →
      ctx = (bthread_make_fcontext_x86_64 m mx fc top entry fin).1 →
      s2.regs.rsi = ctx →
      (x64JumpSave s2 ret2).1 (ctx + 0x38) =
        (bthread_make_fcontext_x86_64 m mx fc top entry fin).2 (ctx + 0x38) →
      (x64JumpSave s2 ret2).1 (ctx + 0x40) =
        (bthread_make_fcontext_x86_64 m mx fc top entry fin).2 (ctx + 0x40) →
        (bthread_jump_fcontext_x86_64 s2 ret2).rip = entry ∧
        (bthread_jump_fcontext_x86_64 s2 ret2).rsp = ctx + 0x40 ∧
        (x64Ret (bthread_jump_fcontext_x86_64 s2 ret2)).rip = fin) ∧
    (∀ (m : Mem) (top entry fin : Nat) (s2 : A64State) (ctx : Nat),
      entry < 2 ^ 64 → fin < 2 ^ 64 →
      ctx = (bthread_make_fcontext_arm64 m top entry fin).1 →
      s2.regs.x1 = ctx →
      (a64JumpSave s2).1 (ctx + 0xa0) =
        (bthread_make_fcontext_arm64 m top entry fin).2 (ctx + 0xa0) →
      (a64JumpSave s2).1 (ctx + 0x98) =
        (bthread_make_fcontext_arm64 m top entry fin).2 (ctx + 0x98) →
        (bthread_jump_fcontext_arm64 s2).pc = entry ∧
        (bthread_jump_fcontext_arm64 s2).regs.x30 = fin ∧
        (a64Ret (bthread_jump_fcontext_arm64 s2)).pc = fin) ∧
    (∀ v : ContextVariant, v ≠ .windows_x86_64 →
      (finishAct v).terminate = some (.exited 0 false)) ∧
    finishAct .windows_x86_64 = .callAbsolute 0x63 ∧
    (finishAct .windows_x86_64).terminate = none := by
  refine ⟨?_, ?_, ?_, rfl, rfl⟩
  · intro m mx fc top entry fin ret2 s2 ctx hent hfin hctx hrsi h38 h40
    subst hctx
    have e38 : (bthread_make_fcontext_x86_64 m mx fc top entry fin).2
        ((bthread_make_fcontext_x86_64 m mx fc top entry fin).1 + 0x38) = entry := by
      simp only [bthread_make_fcontext_x86_64]
      rw [Mem.store_at_ne _ _ _ _ _ (addOffsetNe _ 0x38 0x40 (by decide)),
        Mem.store_at_same]
      exact Nat.mod_eq_of_lt hent
    have e40 : (bthread_make_fcontext_x86_64 m mx fc top entry fin).2
        ((bthread_make_fcontext_x86_64 m mx fc top entry fin).1 + 0x40) = fin := by
      simp only [bthread_make_fcontext_x86_64]
      rw [Mem.store_at_same]
      exact Nat.mod_eq_of_lt hfin
    refine ⟨?_, ?_, ?_⟩
    · rw [jumpX86_rip, hrsi, Mem.load_def, h38, e38]
      exact Nat.mod_eq_of_lt hent
    · rw [jumpX86_rsp, hrsi]
    · rw [x64Ret_rip, jumpX86_mem, jumpX86_rsp, hrsi, Mem.load_def, h40, e40]
      exact Nat.mod_eq_of_lt hfin
  · intro m top entry fin s2 ctx hent hfin hctx hx1 hA0 h98
    subst hctx
    have eA0 : (bthread_make_fcontext_arm64 m top entry fin).2
        ((bthread_make_fcontext_arm64 m top entry fin).1 + 0xa0) = entry := by
      simp only [bthread_make_fcontext_arm64]
      rw [Mem.store_at_ne _ _ _ _ _ (addOffsetNe _ 0xa0 0x98 (by decide)),
        Mem.store_at_same]
      exact Nat.mod_eq_of_lt hent
    have e98 : (bthread_make_fcontext_arm64 m top entry fin).2
        ((bthread_make_fcontext_arm64 m top entry fin).1 + 0x98) = fin := by
      simp only [bthread_make_fcontext_arm64]
      rw [Mem.store_at_same]
      exact Nat.mod_eq_of_lt hfin
    refine ⟨?_, ?_, ?_⟩
    · rw [jumpA64_pc, hx1, Mem.load_def, hA0, eA0]
      exact Nat.mod_eq_of_lt hent
    · rw [jumpA64_x30, hx1, Mem.load_def, h98, e98]
      exact Nat.mod_eq_of_lt hfin
    · rw [a64Ret_pc, jumpA64_x30, hx1, Mem.load_def, h98, e98]
      exact Nat.mod_eq_of_lt hfin
  · intro v hv
    cases v <;> first | rfl | exact (hv rfl).elim

/-- The memory produced by a concrete x86_64 `bthread_make_fcontext` call on
a zeroed 0x200-byte stack, entry 0x111, finish 0x222. -/
def c3MadeX86 : Nat × Mem :=
  bthread_make_fcontext_x86_64 (fun _ => 0) 3 4 0x200 0x111 0x222

/-- A concrete x86_64 state about to jump into the fresh context `c3MadeX86`
(rsi targets it); its own stack and from-pointer are disjoint from the fresh
frame. -/
def c3x86State : X64State :=
  { regs := { rbp := 0, rbx := 0, r12 := 0, r13 := 0, r14 := 0, r15 := 0,
              rdi := 0x2000, rsi := 0x1b8, rdx := 0, rcx := 0, rax := 0,
              r8 := 0, mxcsr := 0, fcw := 0 },
    rsp := 0x1000, rip := 0, mem := c3MadeX86.2 }

/-- The context and memory produced by a concrete arm64
`bthread_make_fcontext` call on a zeroed 0x200-byte stack, entry 0x111,
finish 0x222. -/
def c3MadeA64 : Nat × Mem :=
  bthread_make_fcontext_arm64 (fun _ => 0) 0x200 0x111 0x222

/-- A concrete arm64 state about to jump into the fresh context `c3MadeA64`
(x1 targets it); its own stack and from-pointer are disjoint from the fresh
frame. -/
def c3a64State : A64State :=
  { regs := { x0 := 0x2000, x1 := 0x150, x2 := 0, x3 := 0, x4 := 0,
              x19 := 0, x20 := 0, x21 := 0, x22 := 0, x23 := 0, x24 := 0,
              x25 := 0, x26 := 0, x27 := 0, x28 := 0, x29 := 0, x30 := 0,
              d8 := 0, d9 := 0, d10 := 0, d11 := 0, d12 := 0, d13 := 0,
              d14 := 0, d15 := 0 },
    sp := 0x1000, pc := 0, mem := c3MadeA64.2 }

/-- Witness for the theorem of claim C3 at concrete fresh contexts on both
fully modelled variants, and at the concrete variant linux_i386 for the
finish-behavior table. -/
theorem fresh_context_return_reaches_finish_witness :
    ((0x111 : Nat) < 2 ^ 64 ∧ (0x222 : Nat) < 2 ^ 64 ∧
     (0x1b8 : Nat) = (bthread_make_fcontext_x86_64 (fun _ => 0) 3 4 0x200 0x111 0x222).1 ∧
     c3x86State.regs.rsi = 0x1b8 ∧
     (x64JumpSave c3x86State 7).1 (0x1b8 + 0x38) =
       (bthread_make_fcontext_x86_64 (fun _ => 0) 3 4 0x200 0x111 0x222).2 (0x1b8 + 0x38) ∧
     (x64JumpSave c3x86State 7).1 (0x1b8 + 0x40) =
       (bthread_make_fcontext_x86_64 (fun _ => 0) 3 4 0x200 0x111 0x222).2 (0x1b8 + 0x40) ∧
     ((bthread_jump_fcontext_x86_64 c3x86State 7).rip = 0x111 ∧
      (bthread_jump_fcontext_x86_64 c3x86State 7).rsp = 0x1b8 + 0x40 ∧
      (x64Ret (bthread_jump_fcontext_x86_64 c3x86State 7)).rip = 0x222)) ∧
    ((0x150 : Nat) = (bthread_make_fcontext_arm64 (fun _ => 0) 0x200 0x111 0x222).1 ∧
     c3a64State.regs.x1 = 0x150 ∧
     (a64JumpSave c3a64State).1 (0x150 + 0xa0) =
       (bthread_make_fcontext_arm64 (fun _ => 0) 0x200 0x111 0x222).2 (0x150 + 0xa0) ∧
     (a64JumpSave c3a64State).1 (0x150 + 0x98) =
       (bthread_make_fcontext_arm64 (fun _ => 0) 0x200 0x111 0x222).2 (0x150 + 0x98) ∧
     ((bthread_jump_fcontext_arm64 c3a64State).pc = 0x111 ∧
      (bthread_jump_fcontext_arm64 c3a64State).regs.x30 = 0x222 ∧
      (a64Ret (bthread_jump_fcontext_arm64 c3a64State)).pc = 0x222)) ∧
    (ContextVariant.linux_i386 ≠ ContextVariant.windows_x86_64 ∧
     (finishAct .linux_i386).terminate = some (.exited 0 false)) :=
  ⟨⟨by decide, by decide, by decide, by decide, by decide, by decide,
    fresh_context_return_reaches_finish.1 (fun _ => 0) 3 4 0x200 0x111 0x222 7
      c3x86State 0x1b8 (by decide) (by decide) (by decide) (by decide)
      (by decide) (by decide)⟩,
   ⟨by decide, by decide, by decide, by decide,
    fresh_context_return_reaches_finish.2.1 (fun _ => 0) 0x200 0x111 0x222
      c3a64State 0x150 (by decide) (by decide) (by decide) (by decide)
      (by decide) (by decide)⟩,
   ⟨by decide,
    fresh_context_return_reaches_finish.2.2.1 .linux_i386 (by decide)⟩⟩

/-- Claim C9: when an entry function returns normally, the finish trampoline
(shown for the cited variants linux_x86_64 and windows_i386) terminates the
process by calling `_exit` with status 0: the exit code is zero regardless
of the incoming register or stack state, atexit handlers and static
destructors do not run (`ranHandlers = false`), and the process does not
abort. -/
theorem finish_exits_zero_no_cleanup :
    (∀ rdi : Nat,
      (finish_linux_x86_64 rdi).terminate = some (.exited 0 false)) ∧
    (∀ (esp : Nat) (m : Mem),
      (finish_windows_i386 esp m).terminate = some (.exited 0 false)) ∧
    (∀ rdi : Nat, (finish_linux_x86_64 rdi).terminate ≠ some .aborted) ∧
    (∀ (esp : Nat) (m : Mem),
      (finish_windows_i386 esp m).terminate ≠ some .aborted) := by
  refine ⟨fun rdi => ?_, fun esp m => ?_, fun rdi => ?_, fun esp m => ?_⟩ <;>
    simp [finish_linux_x86_64, finish_windows_i386, FinishAct.terminate,
      Mem.load_store_same]

/-- Claim C5: linux_x86_64 `bthread_jump_fcontext` delivers the transfer
value (the third argument, rdx) to the target as its incoming argument:
unconditionally, the state after a jump has both rax (the return-value
register of the resumed jump call) and rdi (the first-parameter register of
a fresh entry function) equal to the outgoing rdx.  For a fresh target made
by `bthread_make_fcontext`, execution moreover starts at the entry function
with that value as first parameter; for a suspended target (a frame saved by
an earlier jump out of A), execution resumes at the instruction after the
call A made, with that value as the returned value - the suspended call
returns the value passed by whoever jumped back into the saved context. -/
theorem jump_fcontext_transfer_value_x86_64 :
    (∀ (s : X64State) (ret : Nat),
      (bthread_jump_fcontext_x86_64 s ret).regs.rax = s.regs.rdx ∧
      (bthread_jump_fcontext_x86_64 s ret).regs.rdi = s.regs.rdx) ∧
    (∀ (m : Mem) (mx fc top entry fin ret2 : Nat) (s2 : X64State) (ctx : Nat),
      entry < 2 ^ 64 →
      ctx = (bthread_make_fcontext_x86_64 m mx fc top entry fin).1 →
      s2.regs.rsi = ctx →
      (x64JumpSave s2 ret2).1 (ctx + 0x38) =
        (bthread_make_fcontext_x86_64 m mx fc top entry fin).2 (ctx + 0x38) →
        (bthread_jump_fcontext_x86_64 s2 ret2).rip = entry ∧
        (bthread_jump_fcontext_x86_64 s2 ret2).regs.rdi = s2.regs.rdx ∧
        (bthread_jump_fcontext_x86_64 s2 ret2).regs.rax = s2.regs.rdx) ∧
    (∀ (s s2 : X64State) (ret ret2 : Nat),
      64 ≤ s.rsp → ret < 2 ^ 64 → s.regs.ok →
      s.regs.rdi ∉ x64FrameCells (s.rsp - 64) →
      (∀ a ∈ x64FrameCells (s.rsp - 64),
        (x64JumpSave s2 ret2).1 a = (x64JumpSave s ret).1 a) →
      s2.regs.rsi = s.rsp - 64 →
        (bthread_jump_fcontext_x86_64 s2 ret2).rip = ret ∧
        (bthread_jump_fcontext_x86_64 s2 ret2).regs.rax = s2.regs.rdx) := by
  refine ⟨fun s ret => ⟨rfl, rfl⟩, ?_, ?_⟩
  · intro m mx fc top entry fin ret2 s2 ctx hent hctx hrsi h38
    subst hctx
    have e38 : (bthread_make_fcontext_x86_64 m mx fc top entry fin).2
        ((bthread_make_fcontext_x86_64 m mx fc top entry fin).1 + 0x38) = entry := by
      simp only [bthread_make_fcontext_x86_64]
      rw [Mem.store_at_ne _ _ _ _ _ (addOffsetNe _ 0x38 0x40 (by decide)),
        Mem.store_at_same]
      exact Nat.mod_eq_of_lt hent
    refine ⟨?_, rfl, rfl⟩
    rw [jumpX86_rip, hrsi, Mem.load_def, h38, e38]
    exact Nat.mod_eq_of_lt hent
  · intro s s2 ret ret2 hrsp hret hok hdi hframe hto
    have hS := x64JumpSave_frame s ret hrsp hret hok hdi
    have f56 := hframe (s.rsp - 64 + 56) (x64FrameCells_mem (s.rsp - 64)).2.2.2.2.2.2.2.2
    refine ⟨?_, rfl⟩
    rw [jumpX86_rip, hto, Mem.load_def, f56, hS.2.2.2.2.2.2.1]
    exact Nat.mod_eq_of_lt hret

/-- Witness for claim C5: the unconditional delivery at the concrete state
`c2StateB` (value 99), the fresh-context case at `c3x86State`, and the
suspended case at the round-trip pair `c2StateA` / `c2StateB`. -/
theorem jump_fcontext_transfer_value_x86_64_witness :
    ((bthread_jump_fcontext_x86_64 c2StateB 22).regs.rax = c2StateB.regs.rdx ∧
     (bthread_jump_fcontext_x86_64 c2StateB 22).regs.rdi = c2StateB.regs.rdx) ∧
    ((0x111 : Nat) < 2 ^ 64 ∧
     (0x1b8 : Nat) = (bthread_make_fcontext_x86_64 (fun _ => 0) 3 4 0x200 0x111 0x222).1 ∧
     c3x86State.regs.rsi = 0x1b8 ∧
     (x64JumpSave c3x86State 7).1 (0x1b8 + 0x38) =
       (bthread_make_fcontext_x86_64 (fun _ => 0) 3 4 0x200 0x111 0x222).2 (0x1b8 + 0x38) ∧
     ((bthread_jump_fcontext_x86_64 c3x86State 7).rip = 0x111 ∧
      (bthread_jump_fcontext_x86_64 c3x86State 7).regs.rdi = c3x86State.regs.rdx ∧
      (bthread_jump_fcontext_x86_64 c3x86State 7).regs.rax = c3x86State.regs.rdx)) ∧
    (64 ≤ c2StateA.rsp ∧ 11 < 2 ^ 64 ∧ c2StateA.regs.ok ∧
     c2StateA.regs.rdi ∉ x64FrameCells (c2StateA.rsp - 64) ∧
     (∀ a ∈ x64FrameCells (c2StateA.rsp - 64),
       (x64JumpSave c2StateB 22).1 a = (x64JumpSave c2StateA 11).1 a) ∧
     c2StateB.regs.rsi = c2StateA.rsp - 64 ∧
     ((bthread_jump_fcontext_x86_64 c2StateB 22).rip = 11 ∧
      (bthread_jump_fcontext_x86_64 c2StateB 22).regs.rax = c2StateB.regs.rdx)) :=
  ⟨jump_fcontext_transfer_value_x86_64.1 c2StateB 22,
   ⟨by decide, by decide, by decide, by decide,
    jump_fcontext_transfer_value_x86_64.2.1 (fun _ => 0) 3 4 0x200 0x111 0x222 7
      c3x86State 0x1b8 (by decide) (by decide) (by decide) (by decide)⟩,
   ⟨by decide, by decide, by decide, by decide, by decide, by decide,
    jump_fcontext_transfer_value_x86_64.2.2 c2StateA c2StateB 11 22 (by decide)
      (by decide) (by decide) (by decide) (by decide) (by decide)⟩⟩

/-- Claim C10: `bthread_make_fcontext` returns the supplied stack top aligned
down to a 16-byte boundary and then offset down by the per-architecture save
area size (0x48 on linux_x86_64, 0xb0 on linux_arm64), and writes only
inside that reserved area at the tail of the stack: the entry pointer and
the finish return address at their fixed offsets (0x38 / 0x40 on x86_64,
0xa0 / 0x98 on arm64; the x86_64 variant also seeds the FP control words at
offsets 0x0 / 0x4), while every cell below the returned pointer or at and
above the 16-byte-aligned top - in particular everything above stack_top -
keeps its previous content. -/
theorem make_fcontext_footprint :
    (∀ (m : Mem) (mx fc top entry fin : Nat),
      (bthread_make_fcontext_x86_64 m mx fc top entry fin).1 =
        (top - top % 16) - 0x48 ∧
      (entry < 2 ^ 64 →
        (bthread_make_fcontext_x86_64 m mx fc top entry fin).2
          ((top - top % 16) - 0x48 + 0x38) = entry) ∧
      (fin < 2 ^ 64 →
        (bthread_make_fcontext_x86_64 m mx fc top entry fin).2
          ((top - top % 16) - 0x48 + 0x40) = fin) ∧
      (mx < 2 ^ 32 →
        (bthread_make_fcontext_x86_64 m mx fc top entry fin).2
          ((top - top % 16) - 0x48) = mx) ∧
      (fc < 2 ^ 16 →
        (bthread_make_fcontext_x86_64 m mx fc top entry fin).2
          ((top - top % 16) - 0x48 + 4) = fc) ∧
      (∀ x, x < (top - top % 16) - 0x48 ∨ (top - top % 16) - 0x48 + 0x48 ≤ x →
        (bthread_make_fcontext_x86_64 m mx fc top entry fin).2 x = m x) ∧
      (top - top % 16) % 16 = 0 ∧
      (0x48 ≤ top - top % 16 →
        (top - top % 16) - 0x48 + 0x48 = top - top % 16 ∧
        top - top % 16 ≤ top)) ∧
    (∀ (m : Mem) (top entry fin : Nat),
      (bthread_make_fcontext_arm64 m top entry fin).1 =
        (top - top % 16) - 0xb0 ∧
      (entry < 2 ^ 64 →
        (bthread_make_fcontext_arm64 m top entry fin).2
          ((top - top % 16) - 0xb0 + 0xa0) = entry) ∧
      (fin < 2 ^ 64 →
        (bthread_make_fcontext_arm64 m top entry fin).2
          ((top - top % 16) - 0xb0 + 0x98) = fin) ∧
      (∀ x, x < (top - top % 16) - 0xb0 ∨ (top - top % 16) - 0xb0 + 0xb0 ≤ x →
        (bthread_make_fcontext_arm64 m top entry fin).2 x = m x) ∧
      (top - top % 16) % 16 = 0 ∧
      (0xb0 ≤ top - top % 16 →
        (top - top % 16) - 0xb0 + 0xb0 = top - top % 16 ∧
        top - top % 16 ≤ top)) := by
  refine ⟨fun m mx fc top entry fin => ?_, fun m top entry fin => ?_⟩
  · refine ⟨rfl, fun h => ?_, fun h => ?_, fun h => ?_, fun h => ?_,
      fun x hx => ?_, by omega,
      fun h => ⟨Nat.sub_add_cancel h, Nat.sub_le top (top % 16)⟩⟩
    · simp only [bthread_make_fcontext_x86_64]
      rw [Mem.store_at_ne _ _ _ _ _ (addOffsetNe _ 0x38 0x40 (by decide)),
        Mem.store_at_same]
      exact Nat.mod_eq_of_lt h
    · simp only [bthread_make_fcontext_x86_64]
      rw [Mem.store_at_same]
      exact Nat.mod_eq_of_lt h
    · simp only [bthread_make_fcontext_x86_64]
      rw [Mem.store_at_ne _ _ _ _ _ (Ne.symm (addOffsetNeBase _ 0x40 (by decide))),
        Mem.store_at_ne _ _ _ _ _ (Ne.symm (addOffsetNeBase _ 0x38 (by decide))),
        Mem.store_at_ne _ _ _ _ _ (Ne.symm (addOffsetNeBase _ 4 (by decide))),
        Mem.store_at_same]
      exact Nat.mod_eq_of_lt h
    · simp only [bthread_make_fcontext_x86_64]
      rw [Mem.store_at_ne _ _ _ _ _ (addOffsetNe _ 4 0x40 (by decide)),
        Mem.store_at_ne _ _ _ _ _ (addOffsetNe _ 4 0x38 (by decide)),
        Mem.store_at_same]
      exact Nat.mod_eq_of_lt h
    · simp only [bthread_make_fcontext_x86_64]
      rw [Mem.store_at_ne _ _ _ _ _ (outsideNe _ 0x40 0x48 x (by decide) hx),
        Mem.store_at_ne _ _ _ _ _ (outsideNe _ 0x38 0x48 x (by decide) hx),
        Mem.store_at_ne _ _ _ _ _ (outsideNe _ 4 0x48 x (by decide) hx),
        Mem.store_at_ne _ _ _ _ _ (outsideNeBase _ 0x48 x (by decide) hx)]
  · refine ⟨rfl, fun h => ?_, fun h => ?_, fun x hx => ?_, by omega,
      fun h => ⟨Nat.sub_add_cancel h, Nat.sub_le top (top % 16)⟩⟩
    · simp only [bthread_make_fcontext_arm64]
      rw [Mem.store_at_ne _ _ _ _ _ (addOffsetNe _ 0xa0 0x98 (by decide)),
        Mem.store_at_same]
      exact Nat.mod_eq_of_lt h
    · simp only [bthread_make_fcontext_arm64]
      rw [Mem.store_at_same]
      exact Nat.mod_eq_of_lt h
    · simp only [bthread_make_fcontext_arm64]
      rw [Mem.store_at_ne _ _ _ _ _ (outsideNe _ 0x98 0xb0 x (by decide) hx),
        Mem.store_at_ne _ _ _ _ _ (outsideNe _ 0xa0 0xb0 x (by decide) hx)]

/-- Witness for claim C10 at a concrete zeroed 0x200-byte stack with entry
0x111 and finish 0x222 on both variants, evaluating the returned pointers
and the seeded cells. -/
theorem make_fcontext_footprint_witness :
    (((bthread_make_fcontext_x86_64 (fun _ => 0) 3 4 0x200 0x111 0x222).1 =
        (0x200 - 0x200 % 16) - 0x48) ∧
     ((0x111 : Nat) < 2 ^ 64 ∧
      (bthread_make_fcontext_x86_64 (fun _ => 0) 3 4 0x200 0x111 0x222).2
        ((0x200 - 0x200 % 16) - 0x48 + 0x38) = 0x111) ∧
     ((0x222 : Nat) < 2 ^ 64 ∧
      (bthread_make_fcontext_x86_64 (fun _ => 0) 3 4 0x200 0x111 0x222).2
        ((0x200 - 0x200 % 16) - 0x48 + 0x40) = 0x222) ∧
     ((0x48 : Nat) ≤ 0x200 - 0x200 % 16 ∧
      (0x200 - 0x200 % 16) - 0x48 + 0x48 = 0x200 - 0x200 % 16 ∧
      (0x200 : Nat) - 0x200 % 16 ≤ 0x200)) ∧
    (((bthread_make_fcontext_arm64 (fun _ => 0) 0x200 0x111 0x222).1 =
        (0x200 - 0x200 % 16) - 0xb0) ∧
     ((0x111 : Nat) < 2 ^ 64 ∧
      (bthread_make_fcontext_arm64 (fun _ => 0) 0x200 0x111 0x222).2
        ((0x200 - 0x200 % 16) - 0xb0 + 0xa0) = 0x111) ∧
     ((0x222 : Nat) < 2 ^ 64 ∧
      (bthread_make_fcontext_arm64 (fun _ => 0) 0x200 0x111 0x222).2
        ((0x200 - 0x200 % 16) - 0xb0 + 0x98) = 0x222) ∧
     ((0xb0 : Nat) ≤ 0x200 - 0x200 % 16 ∧
      (0x200 - 0x200 % 16) - 0xb0 + 0xb0 = 0x200 - 0x200 % 16 ∧
      (0x200 : Nat) - 0x200 % 16 ≤ 0x200)) :=
  ⟨⟨(make_fcontext_footprint.1 (fun _ => 0) 3 4 0x200 0x111 0x222).1,
    ⟨by decide, (make_fcontext_footprint.1 (fun _ => 0) 3 4 0x200 0x111 0x222).2.1
      (by decide)⟩,
    ⟨by decide, (make_fcontext_footprint.1 (fun _ => 0) 3 4 0x200 0x111 0x222).2.2.1
      (by decide)⟩,
    ⟨by decide, (make_fcontext_footprint.1 (fun _ => 0) 3 4 0x200 0x111 0x222).2.2.2.2.2.2.2
      (by decide)⟩⟩,
   ⟨(make_fcontext_footprint.2 (fun _ => 0) 0x200 0x111 0x222).1,
    ⟨by decide, (make_fcontext_footprint.2 (fun _ => 0) 0x200 0x111 0x222).2.1
      (by decide)⟩,
    ⟨by decide, (make_fcontext_footprint.2 (fun _ => 0) 0x200 0x111 0x222).2.2.1
      (by decide)⟩,
    ⟨by decide, (make_fcontext_footprint.2 (fun _ => 0) 0x200 0x111 0x222).2.2.2.2.2
      (by decide)⟩⟩⟩

/-!
## socket_message.h (src/brpc/socket_message.h)

`SocketMessage` is modelled as the object a base-class pointer reaches: a
dynamic type tag, the state of the derived object (`payload`), the overridden
`AppendAndDestroySelf` behavior as a function from the output buffer and the
nullable socket to the returned status and the resulting buffer, and the
overridden `EstimatedByteSize` result.  Pointers are heap addresses; the
heap maps addresses to objects.  `SocketMessagePtr` is the stored pointer of
the `std::unique_ptr` inside the wrapper; its operations follow the C++
standard semantics of `std::unique_ptr` with `details::SocketMessageDeleter`
as deleter: the deleter runs exactly when an owned (non-null) pointer is
dropped by reset or destruction, and never on release. -/

/-- Abstraction of `butil::Status`: the error code returned by
`AppendAndDestroySelf` (0 for OK). -/
structure Status where
  code : Int


/-- Bytes of a `butil::IOBuf`. -/
abbrev IOBuf := List Nat

/-- Socket identity; a nullable `Socket*` is an `Option Socket`. -/
abbrev Socket := Nat

/-- A `SocketMessage` object (socket_message.h lines 27-50): dynamic type
tag, derived-class state, the overridden `AppendAndDestroySelf`, and the
overridden `EstimatedByteSize` result. -/
structure SocketMessage where
  tyTag : Nat
  payload : List Nat
  appendAndDestroySelf : IOBuf → Option Socket → Status × IOBuf
  estimatedByteSize : Nat

/-- The default `EstimatedByteSize` implementation (line 49):
`{ return 0; }`, a pure function of the object returning zero
unconditionally. -/
def estimatedByteSizeDefault : SocketMessage → Nat :=
  fun _ => 0

/-- `details::SocketMessageDeleter::operator()` (lines 53-59): construct an
empty dummy buffer, call `AppendAndDestroySelf` on it with a NULL socket,
and discard the returned status (the source casts it to void); the operator
returns nothing. -/
def SocketMessageDeleter (msg : SocketMessage) : Unit :=
  let dummy_buf : IOBuf := []
  let _ := msg.appendAndDestroySelf dummy_buf none
  ()

/-- The heap of message objects; a `SocketMessage*` is an address into it. -/
abbrev MsgHeap := Nat → Option SocketMessage

/-- The parameters of one `AppendAndDestroySelf` invocation made by the
deleter: the address of the message and the socket argument passed. -/
structure AppendCall where
  addr : Nat
  sock : Option Socket


/-- The stored pointer of a `SocketMessagePtr` (none = null). -/
abbrev SocketMessagePtr := Option Nat

/-- `unique_ptr::reset(q)`: the old pointee, if any, is passed to the
deleter (which calls `AppendAndDestroySelf(&dummy, NULL)` on it); the
wrapper then owns `q`.  Returns the new state and the deleter invocations
performed. -/
def SocketMessagePtr.reset (st q : SocketMessagePtr) :
    SocketMessagePtr × List AppendCall :=
  (q, match st with
      | some a => [{ addr := a, sock := none }]
      | none => [])

/-- `unique_ptr::release()`: the wrapper gives up ownership and becomes
null; the raw pointer is handed to the caller; the deleter is not
invoked. -/
def SocketMessagePtr.release (st : SocketMessagePtr) :
    SocketMessagePtr × SocketMessagePtr × List AppendCall :=
  (none, st, [])

/-- Move construction or move assignment from a wrapper: the source becomes
null and the target takes the pointer; the deleter is not invoked. -/
def SocketMessagePtr.moveFrom (st : SocketMessagePtr) :
    SocketMessagePtr × SocketMessagePtr :=
  (none, st)

/-- The destructor of the wrapper: if a pointer is still owned, the deleter runs
on it (with a NULL socket); a null wrapper performs no call. -/
def SocketMessagePtr.destroy (st : SocketMessagePtr) : List AppendCall :=
  match st with
  | some a => [{ addr := a, sock := none }]
  | none => []

/-- The operations a client can perform on a live wrapper. -/
inductive SMPtrOp
  | reset (q : SocketMessagePtr)
  | release

/-- Run a sequence of operations from a starting state, collecting the
deleter invocations. -/
def SocketMessagePtr.run (st : SocketMessagePtr) :
    List SMPtrOp → SocketMessagePtr × List AppendCall
  | [] => (st, [])
  | .reset q :: rest =>
      let one := SocketMessagePtr.reset st q
      let r := SocketMessagePtr.run one.1 rest
      (r.1, one.2 ++ r.2)
  | .release :: rest => SocketMessagePtr.run none rest

/-- The full lifetime of a wrapper: run the operations, then destroy the
wrapper; the result is every deleter invocation performed. -/
def SocketMessagePtr.lifetime (st : SocketMessagePtr) (ops : List SMPtrOp) :
    List AppendCall :=
  let r := SocketMessagePtr.run st ops
  r.2 ++ SocketMessagePtr.destroy r.1

/-- The addresses handed out by `release` during a run. -/
def SocketMessagePtr.releasedAddrs (st : SocketMessagePtr) :
    List SMPtrOp → List Nat
  | [] => []
  | .reset q :: rest => SocketMessagePtr.releasedAddrs q rest
  | .release :: rest => st.toList ++ SocketMessagePtr.releasedAddrs none rest

/-- The addresses installed into the wrapper by the `reset` operations of a
sequence. -/
def SMPtrOp.installs : List SMPtrOp → List Nat
  | [] => []
  | .reset (some q) :: rest => q :: SMPtrOp.installs rest
  | .reset none :: rest => SMPtrOp.installs rest
  | .release :: rest => SMPtrOp.installs rest

/-- How many of the recorded invocations hit the message at address `a`. -/
def countCallsOn (a : Nat) (l : List AppendCall) : Nat :=
  (l.filter (fun c => c.addr == a)).length

theorem SocketMessagePtr.lifetime_nil (st : SocketMessagePtr) :
    SocketMessagePtr.lifetime st [] = SocketMessagePtr.destroy st := by
  simp [SocketMessagePtr.lifetime, SocketMessagePtr.run]

theorem SocketMessagePtr.lifetime_reset (st q : SocketMessagePtr)
    (rest : List SMPtrOp) :
    SocketMessagePtr.lifetime st (.reset q :: rest) =
      (SocketMessagePtr.reset st q).2 ++ SocketMessagePtr.lifetime q rest := by
  simp [SocketMessagePtr.lifetime, SocketMessagePtr.run, SocketMessagePtr.reset]

theorem SocketMessagePtr.lifetime_release (st : SocketMessagePtr)
    (rest : List SMPtrOp) :
    SocketMessagePtr.lifetime st (.release :: rest) =
      SocketMessagePtr.lifetime none rest := by
  simp [SocketMessagePtr.lifetime, SocketMessagePtr.run]

theorem countCallsOn_append (a : Nat) (l1 l2 : List AppendCall) :
    countCallsOn a (l1 ++ l2) = countCallsOn a l1 + countCallsOn a l2 := by
  simp [countCallsOn, List.filter_append]

theorem countCallsOn_not_owned (a : Nat) :
    ∀ (ops : List SMPtrOp) (st : SocketMessagePtr), st ≠ some a →
      a ∉ SMPtrOp.installs ops →
      countCallsOn a (SocketMessagePtr.lifetime st ops) = 0 := by
  intro ops
  induction ops with
  | nil =>
    intro st hst _
    cases st with
    | none => simp [SocketMessagePtr.lifetime_nil, SocketMessagePtr.destroy,
        countCallsOn]
    | some b =>
      have hba : ¬(b = a) := fun h => hst (by rw [h])
      simp [SocketMessagePtr.lifetime_nil, SocketMessagePtr.destroy,
        countCallsOn, hba]
  | cons op rest ih =>
    intro st hst hin
    cases op with
    | reset q =>
      rw [SocketMessagePtr.lifetime_reset, countCallsOn_append]
      have hq : q ≠ some a := by
        intro h
        apply hin
        rw [h]
        simp [SMPtrOp.installs]
      have hrest : a ∉ SMPtrOp.installs rest := by
        intro h
        apply hin
        cases q with
        | none => simpa [SMPtrOp.installs] using h
        | some b => simp [SMPtrOp.installs]; right; exact h
      rw [ih q hq hrest]
      cases st with
      | none => simp [SocketMessagePtr.reset, countCallsOn]
      | some b =>
        have hba : ¬(b = a) := fun h => hst (by rw [h])
        simp [SocketMessagePtr.reset, countCallsOn, hba]
    | release =>
      rw [SocketMessagePtr.lifetime_release]
      exact ih none (by simp) (by simpa [SMPtrOp.installs] using hin)

theorem lifetime_sock_none :
    ∀ (ops : List SMPtrOp) (st : SocketMessagePtr) (c : AppendCall),
      c ∈ SocketMessagePtr.lifetime st ops → c.sock = none := by
  intro ops
  induction ops with
  | nil =>
    intro st c hc
    cases st with
    | none => simp [SocketMessagePtr.lifetime_nil, SocketMessagePtr.destroy] at hc
    | some b =>
      simp [SocketMessagePtr.lifetime_nil, SocketMessagePtr.destroy] at hc
      rw [hc]
  | cons op rest ih =>
    intro st c hc
    cases op with
    | reset q =>
      rw [SocketMessagePtr.lifetime_reset] at hc
      rcases List.mem_append.1 hc with h1 | h2
      · cases st with
        | none => simp [SocketMessagePtr.reset] at h1
        | some b =>
          simp [SocketMessagePtr.reset] at h1
          rw [h1]
      · exact ih q c h2
    | release =>
      rw [SocketMessagePtr.lifetime_release] at hc
      exact ih none c hc

/-- Claim C1: a message owned by a `SocketMessagePtr` whose lifetime ends
(by destruction, possibly after resets) without the message ever being
released receives exactly one `AppendAndDestroySelf` call, that call passes
a NULL socket, and the status the deleter gets back is discarded (the
deleter returns nothing).  `hinst` says the address of the message is installed
only once (a pointer uniquely owns its pointee), `hrel` that no release of
the run hands it out. -/
theorem socket_message_abandoned_exactly_once (a : Nat) (ops : List SMPtrOp)
    (hinst : a ∉ SMPtrOp.installs ops)
    (hrel : a ∉ SocketMessagePtr.releasedAddrs (some a) ops) :
    countCallsOn a (SocketMessagePtr.lifetime (some a) ops) = 1 ∧
    (∀ c ∈ SocketMessagePtr.lifetime (some a) ops, c.sock = none) ∧
    (∀ msg : SocketMessage, SocketMessageDeleter msg = ()) := by
  refine ⟨?_, fun c hc => lifetime_sock_none ops (some a) c hc, fun msg => rfl⟩
  cases ops with
  | nil =>
    simp [SocketMessagePtr.lifetime_nil, SocketMessagePtr.destroy, countCallsOn]
  | cons op rest =>
    cases op with
    | reset q =>
      rw [SocketMessagePtr.lifetime_reset, countCallsOn_append]
      have hq : q ≠ some a := by
        intro h
        apply hinst
        rw [h]
        simp [SMPtrOp.installs]
      have hrest : a ∉ SMPtrOp.installs rest := by
        intro h
        apply hinst
        cases q with
        | none => simpa [SMPtrOp.installs] using h
        | some b => simp [SMPtrOp.installs]; right; exact h
      rw [countCallsOn_not_owned a rest q hq hrest]
      simp [SocketMessagePtr.reset, countCallsOn]
    | release =>
      simp [SocketMessagePtr.releasedAddrs] at hrel

/-- Witness for claim C1: the wrapper owning message 5 is reset to message 7
and later destroyed; message 5 is never released, and the run calls
`AppendAndDestroySelf` on it exactly once, with a NULL socket. -/
theorem socket_message_abandoned_exactly_once_witness :
    ((5 : Nat) ∉ SMPtrOp.installs [SMPtrOp.reset (some 7), SMPtrOp.release] ∧
     (5 : Nat) ∉ SocketMessagePtr.releasedAddrs (some 5)
       [SMPtrOp.reset (some 7), SMPtrOp.release]) ∧
    (countCallsOn 5 (SocketMessagePtr.lifetime (some 5)
       [SMPtrOp.reset (some 7), SMPtrOp.release]) = 1 ∧
     (∀ c ∈ SocketMessagePtr.lifetime (some 5)
        [SMPtrOp.reset (some 7), SMPtrOp.release], c.sock = none) ∧
     (∀ msg : SocketMessage, SocketMessageDeleter msg = ())) :=
  ⟨⟨by decide, by decide⟩,
   socket_message_abandoned_exactly_once 5 [SMPtrOp.reset (some 7), SMPtrOp.release]
     (by decide) (by decide)⟩

/-- Claim C8: no operation on an empty (null) `SocketMessagePtr` invokes the
deleter - so the deleter, which dereferences its argument unconditionally,
only ever runs on a live message.  Destroying a null wrapper performs no
call; resetting a null wrapper performs no call; releasing performs no call
and leaves the wrapper null, so a subsequent destruction performs no call;
moving from a wrapper leaves the source null, so destroying the moved-from
source performs no call; and an empty full lifetime performs no call. -/
theorem empty_socket_message_ptr_safe :
    SocketMessagePtr.destroy none = [] ∧
    (∀ q : SocketMessagePtr, SocketMessagePtr.reset none q = (q, [])) ∧
    (∀ st : SocketMessagePtr,
      (SocketMessagePtr.release st).2.2 = [] ∧
      (SocketMessagePtr.release st).1 = none ∧
      SocketMessagePtr.destroy (SocketMessagePtr.release st).1 = []) ∧
    (∀ st : SocketMessagePtr,
      (SocketMessagePtr.moveFrom st).1 = none ∧
      SocketMessagePtr.destroy (SocketMessagePtr.moveFrom st).1 = []) ∧
    SocketMessagePtr.lifetime none [] = [] :=
  ⟨rfl, fun _ => rfl, fun _ => ⟨rfl, rfl, rfl⟩, fun _ => ⟨rfl, rfl⟩, rfl⟩

/-- Claim C7: `EstimatedByteSize` is a pure hint that never influences the
bytes `AppendAndDestroySelf` produces.  The default implementation returns
zero unconditionally for every object; two objects that differ only in
their `EstimatedByteSize` result produce identical status and buffer from
every `AppendAndDestroySelf` invocation; and the deleter - the only caller
in this header - behaves identically on them. -/
theorem estimated_byte_size_pure_hint :
    (∀ msg : SocketMessage, estimatedByteSizeDefault msg = 0) ∧
    (∀ (msg : SocketMessage) (k : Nat) (buf : IOBuf) (sock : Option Socket),
      ({ msg with estimatedByteSize := k } : SocketMessage).appendAndDestroySelf
          buf sock =
        msg.appendAndDestroySelf buf sock) ∧
    (∀ (msg : SocketMessage) (k : Nat),
      SocketMessageDeleter { msg with estimatedByteSize := k } =
        SocketMessageDeleter msg) :=
  ⟨fun _ => rfl, fun _ _ _ _ => rfl, fun _ _ => rfl⟩

/-- The view of a concrete message type `T` derived from `SocketMessage`:
its dynamic type tag and the `static_cast<T*>` reinterpretation of a base
object as a `T` (partial: it recovers a `T` exactly from objects whose
dynamic type is `T`). -/
structure MsgTypeView (T : Type) where
  tag : Nat
  decode : SocketMessage → Option T

/-- Conversion of a `SocketMessagePtr<T>` to the type-erased
`SocketMessagePtr<>` (lines 64-65 and 77-80): the typed wrapper derives from
the erased one and stores the base-class pointer, so the conversion is the
identity on the stored pointer. -/
def SocketMessagePtr.erase (st : SocketMessagePtr) : SocketMessagePtr :=
  st

/-- `SocketMessagePtr<T>::operator*` / `operator->` (lines 81-84):
dereference the stored base pointer and `static_cast` the object to `T`. -/
def SocketMessagePtr.derefT {T : Type} (V : MsgTypeView T) (h : MsgHeap)
    (st : SocketMessagePtr) : Option T :=
  match st with
  | some a =>
    match h a with
    | some msg => V.decode msg
    | none => none
  | none => none

/-- `SocketMessagePtr<T>::release` (line 85): the base release, its result
cast to `T*`; the wrapper becomes null, no deleter call happens, and the
returned pointer is the stored one. -/
def SocketMessagePtr.releaseT (st : SocketMessagePtr) :
    SocketMessagePtr × SocketMessagePtr :=
  (none, st)

/-- Claim C6: a typed `SocketMessagePtr<T>` converts to the type-erased
`SocketMessagePtr<>` carrying the very same underlying `SocketMessage`
(the conversion is the identity on the stored pointer, so a queue of erased
wrappers can hold any concrete message type), and the typed accessors
recover the object as a `T`: `operator*` / `operator->` yield the decoded
`T`, and `release` hands back the same pointer, as a `T*`, leaving the
wrapper null so its destruction performs no deleter call. -/
theorem typed_socket_message_ptr_erasure {T : Type} (V : MsgTypeView T)
    (h : MsgHeap) (a : Nat) (msg : SocketMessage) (t : T)
    (hha : h a = some msg) (hdec : V.decode msg = some t) :
    SocketMessagePtr.erase (some a) = some a ∧
    (SocketMessagePtr.erase (some a)).bind h = some msg ∧
    SocketMessagePtr.derefT V h (some a) = some t ∧
    (SocketMessagePtr.releaseT (some a)).2 = some a ∧
    SocketMessagePtr.derefT V h (SocketMessagePtr.releaseT (some a)).2 = some t ∧
    (SocketMessagePtr.releaseT (some a)).1 = none ∧
    SocketMessagePtr.destroy (SocketMessagePtr.releaseT (some a)).1 = [] := by
  refine ⟨rfl, ?_, ?_, rfl, ?_, rfl, rfl⟩
  · simp [SocketMessagePtr.erase, hha]
  · simp [SocketMessagePtr.derefT, hha, hdec]
  · simp [SocketMessagePtr.releaseT, SocketMessagePtr.derefT, hha, hdec]

/-- A concrete message type for the witness: a labelled message whose
`AppendAndDestroySelf` appends its label; its dynamic type tag is 42 and
its label is recoverable from the object state. -/
def demoMsg (label : Nat) : SocketMessage :=
  { tyTag := 42, payload := [label],
    appendAndDestroySelf := fun buf _ => ({ code := 0 }, buf ++ [label]),
    estimatedByteSize := 0 }

/-- The type view of `demoMsg`: objects tagged 42 decode to their label. -/
def demoView : MsgTypeView Nat :=
  { tag := 42,
    decode := fun msg => if msg.tyTag = 42 then msg.payload.head? else none }

/-- A one-object heap holding `demoMsg 9` at address 5. -/
def demoHeap : MsgHeap :=
  fun x => if x = 5 then some (demoMsg 9) else none

/-- Witness for claim C6 at the concrete heap `demoHeap`: the typed wrapper
owning the message at address 5 erases to the same pointer, dereferences to
the label 9, and releases the same pointer as a `T*`. -/
theorem typed_socket_message_ptr_erasure_witness :
    (demoHeap 5 = some (demoMsg 9) ∧
     demoView.decode (demoMsg 9) = some 9) ∧
    (SocketMessagePtr.erase (some 5) = some 5 ∧
     (SocketMessagePtr.erase (some 5)).bind demoHeap = some (demoMsg 9) ∧
     SocketMessagePtr.derefT demoView demoHeap (some 5) = some 9 ∧
     (SocketMessagePtr.releaseT (some 5)).2 = some 5 ∧
     SocketMessagePtr.derefT demoView demoHeap
       (SocketMessagePtr.releaseT (some 5)).2 = some 9 ∧
     (SocketMessagePtr.releaseT (some 5)).1 = none ∧
     SocketMessagePtr.destroy (SocketMessagePtr.releaseT (some 5)).1 = []) :=
  ⟨⟨rfl, rfl⟩,
   typed_socket_message_ptr_erasure demoView demoHeap 5 (demoMsg 9) 9 rfl rfl⟩
